import Mathlib

/-!
Verification development for the brownie canvas-template core: a shallow
embedding of the catalog resolution engine (`src/ui/catalog.rs`), the schema
validation engine (`src/ui/schema.rs`), the UI runtime (`src/ui/runtime.rs`)
and the canvas block targeting function (`src/app.rs`), together with theorems
about their behaviour.

Modelling conventions:
- Rust `String` is Lean `String`; `str::trim` is modelled by `strTrim`
  (leading/trailing whitespace removal) because Lean's built-in `String.trim`
  does not reduce in the kernel.
- Rust `BTreeSet` intersections and equalities are modelled through
  `List.toFinset`.
- Rust `BTreeMap<String, V>` is modelled as an association list with
  insert-replaces-value semantics (`assocInsert` / `assocFind`); only
  key-based lookup and insertion order semantics are relied on.
- Rust stable sorts (`sort`, `sort_by`) are modelled by `List.insertionSort`,
  which is also a stable sort, with the comparator relation `cmp x y ≠ .gt`.
- Rust `f64` form defaults are modelled as `Rat`; none of the verified claims
  depends on floating-point rounding.
- `serde_json` deserialization steps are external collaborators and are
  modelled as oracle functions passed in as parameters; `serde_json::Value`
  is modelled by `JsonValue`.
-/

/-- Trim of leading and trailing whitespace, mirroring Rust `str::trim`. -/
def strTrim (s : String) : String :=
  String.mk (((s.data.dropWhile Char.isWhitespace).reverse.dropWhile Char.isWhitespace).reverse)

/-- Model of `serde_json::Value`. Numbers are modelled as rationals. -/
inductive JsonValue where
  | null
  | bool (b : Bool)
  | num (q : Rat)
  | str (s : String)
  | arr (items : List JsonValue)
  | obj (entries : List (String × JsonValue))

/-- Model of `Value::as_str`. -/
def JsonValue.as_str : JsonValue → Option String
  | .str s => some s
  | _ => none

/-- Model of `Value::as_f64` (numbers modelled as rationals). -/
def JsonValue.as_f64 : JsonValue → Option Rat
  | .num q => some q
  | _ => none

/-- Model of `Value::as_bool`. -/
def JsonValue.as_bool : JsonValue → Option Bool
  | .bool b => some b
  | _ => none

/-- Association-list insert with BTreeMap semantics: replace the value when
the key is present, otherwise append the new binding at the end. -/
def assocInsert {α : Type} (m : List (String × α)) (k : String) (v : α) :
    List (String × α) :=
  match m with
  | [] => [(k, v)]
  | (k2, v2) :: rest =>
    if k2 = k then (k2, v) :: rest else (k2, v2) :: assocInsert rest k v

/-- Association-list lookup with BTreeMap semantics. -/
def assocFind {α : Type} (m : List (String × α)) (k : String) : Option α :=
  match m.find? (fun p => p.1 == k) with
  | some p => some p.2
  | none => none

/-- Model of `usize::MAX`, used by `resolve` as an out-of-range tier index. -/
def usizeMax : Nat := 2 ^ 64 - 1

/-! ### Catalog data model (`src/ui/catalog.rs`) -/

/-- Model of `UiIntent`. -/
structure UiIntent where
  primary : String
  operations : List String
  tags : List String

/-- Model of `TemplateMeta`. -/
structure TemplateMeta where
  id : String
  title : String
  version : String
  tags : List String

/-- Model of `TemplateMatch`. -/
structure TemplateMatch where
  primary : String
  operations : List String
  tags : List String

/-- Model of `TemplateDocument`; the schema stays an opaque JSON value. -/
structure TemplateDocument where
  meta : TemplateMeta
  match_rules : TemplateMatch
  schema : JsonValue

/-- Model of `CatalogSourceKind`. -/
inductive CatalogSourceKind where
  | org
  | user
  | builtin
deriving DecidableEq

/-- Model of `CatalogSourceKind::as_str`. -/
def CatalogSourceKind.as_str : CatalogSourceKind → String
  | .org => "org"
  | .user => "user"
  | .builtin => "builtin"

instance : BEq CatalogSourceKind := ⟨fun a b => decide (a = b)⟩

/-- Model of `CatalogSource`. -/
structure CatalogSource where
  provider_id : String
  kind : CatalogSourceKind
  read_only : Bool

/-- Model of `CatalogTemplate`: a document bound to the source it came from. -/
structure CatalogTemplate where
  document : TemplateDocument
  source : CatalogSource

/-- Model of `CatalogTemplate::template_id`. -/
def CatalogTemplate.template_id (t : CatalogTemplate) : String :=
  t.document.meta.id

/-- Model of `ResolutionCandidate`. -/
structure ResolutionCandidate where
  template_id : String
  provider_id : String
  provider_kind : CatalogSourceKind
  score : Int
  operation_overlap : Nat
  tag_overlap : Nat
  excluded_reason : Option String
  selected : Bool
deriving DecidableEq

/-- Model of `ResolutionTrace`. -/
structure ResolutionTrace where
  intent : UiIntent
  provider_precedence : List CatalogSourceKind
  selected_template_id : Option String
  selected_provider_id : Option String
  selected_score : Option Int
  ranked_candidates : List ResolutionCandidate
  no_match_reasons : List String

/-- Model of `ResolutionResult`. -/
structure ResolutionResult where
  selected : Option CatalogTemplate
  trace : ResolutionTrace

/-- Model of `SecondaryScore`. -/
structure SecondaryScore where
  total : Int
  operation_overlap : Nat
  tag_overlap : Nat

/-- Model of `score_secondary`: secondary scoring of a primary-matching
candidate template against the intent. -/
def score_secondary (intent : UiIntent) (template : CatalogTemplate) :
    SecondaryScore :=
  let intent_operations := intent.operations.toFinset
  let intent_tags := intent.tags.toFinset
  let template_operations := template.document.match_rules.operations.toFinset
  let template_tags := template.document.match_rules.tags.toFinset
  let operation_overlap := (template_operations ∩ intent_operations).card
  let tag_overlap := (template_tags ∩ intent_tags).card
  let exact_operation_bonus : Int :=
    if template_operations ≠ ∅ ∧ template_operations = intent_operations then 2
    else 0
  let exact_tag_bonus : Int :=
    if template_tags ≠ ∅ ∧ template_tags = intent_tags then 1 else 0
  { total := (operation_overlap : Int) * 10 + (tag_overlap : Int) * 4 +
      exact_operation_bonus + exact_tag_bonus
    operation_overlap := operation_overlap
    tag_overlap := tag_overlap }

/-- Model of `rank_candidates`: score descending, then template id ascending,
then provider id ascending. -/
def rank_candidates (left right : ResolutionCandidate) : Ordering :=
  ((compare right.score left.score).then
    (compare left.template_id right.template_id)).then
    (compare left.provider_id right.provider_id)

/-- Comparator-at-most relation induced by `rank_candidates`; sorting by it
models the Rust stable `sort_by(rank_candidates)`. -/
def candidate_rank_le (left right : ResolutionCandidate) : Prop :=
  rank_candidates left right ≠ Ordering.gt

instance : DecidableRel candidate_rank_le := fun a b => by
  unfold candidate_rank_le
  infer_instance

/-- Model of `precedence_index`. -/
def precedence_index (kind : CatalogSourceKind)
    (precedence : List CatalogSourceKind) : Nat :=
  (precedence.findIdx? (fun k => k == kind)).getD usizeMax

/-- Model of `CatalogManager::precedence`. -/
def precedence (org_enabled : Bool) : List CatalogSourceKind :=
  if org_enabled then [.org, .user, .builtin] else [.user, .builtin]

/-- Tier index of a template source kind within the active precedence order,
modelling `precedence.iter().position(...)` in `resolve`. -/
def tier_index (prec : List CatalogSourceKind) (kind : CatalogSourceKind) :
    Option Nat :=
  prec.findIdx? (fun k => k == kind)

/-- Candidate record built for a primary-matching template in `resolve`. -/
def candidate_of (intent : UiIntent) (t : CatalogTemplate) :
    ResolutionCandidate :=
  let s := score_secondary intent t
  { template_id := t.template_id
    provider_id := t.source.provider_id
    provider_kind := t.source.kind
    score := s.total
    operation_overlap := s.operation_overlap
    tag_overlap := s.tag_overlap
    excluded_reason := none
    selected := false }

/-- Candidate record built for a primary-mismatching template in `resolve`. -/
def excluded_of (intent : UiIntent) (t : CatalogTemplate) :
    ResolutionCandidate :=
  { template_id := t.template_id
    provider_id := t.source.provider_id
    provider_kind := t.source.kind
    score := 0
    operation_overlap := 0
    tag_overlap := 0
    excluded_reason := some ("primary mismatch expected=" ++
      strTrim t.document.match_rules.primary ++ " actual=" ++
      strTrim intent.primary)
    selected := false }

/-- Per-tier candidate lists of `resolve` (the `matches_by_tier` map): the
primary-matching templates whose source kind sits at tier `i`, in index
order. -/
def tier_candidates (templates : List CatalogTemplate) (intent : UiIntent)
    (prec : List CatalogSourceKind) (i : Nat) : List ResolutionCandidate :=
  templates.filterMap fun t =>
    match tier_index prec t.source.kind with
    | none => none
    | some j =>
      if j = i then
        if strTrim t.document.match_rules.primary = strTrim intent.primary then
          some (candidate_of intent t)
        else none
      else none

/-- Unsorted, unmarked candidate records accumulated by the template loop of
`resolve` (templates whose tier is outside the precedence order are
skipped). -/
def initial_ranked (templates : List CatalogTemplate) (intent : UiIntent)
    (prec : List CatalogSourceKind) : List ResolutionCandidate :=
  templates.filterMap fun t =>
    match tier_index prec t.source.kind with
    | none => none
    | some _ =>
      if strTrim t.document.match_rules.primary = strTrim intent.primary then
        some (candidate_of intent t)
      else some (excluded_of intent t)

/-- Tier-walk of `resolve`: the first precedence tier with at least one
candidate supplies the winner, the top-ranked candidate of that tier. -/
def selection (templates : List CatalogTemplate) (org_enabled : Bool)
    (intent : UiIntent) : Option (Nat × ResolutionCandidate) :=
  let prec := precedence org_enabled
  (List.range prec.length).findSome? fun i =>
    (List.insertionSort candidate_rank_le
      (tier_candidates templates intent prec i)).head?.map (fun c => (i, c))

/-- Marking pass of `resolve`: flag the winning candidate and attach
exclusion reasons to the losing ones. -/
def mark_candidate (prec : List CatalogSourceKind)
    (sel : Option (Nat × ResolutionCandidate)) (c : ResolutionCandidate) :
    ResolutionCandidate :=
  match sel with
  | none => c
  | some (selected_tier, best) =>
    if c.template_id = best.template_id ∧ c.provider_id = best.provider_id then
      { c with selected := true }
    else if c.excluded_reason = none then
      let candidate_tier := (tier_index prec c.provider_kind).getD usizeMax
      let reason :=
        if selected_tier < candidate_tier then
          "lower provider precedence than " ++
            ((prec.getD selected_tier .builtin).as_str)
        else "lower score or tie-break in same tier"
      { c with excluded_reason := some reason }
    else c

/-- Final trace ordering of `resolve`: rank order refined by precedence
index. -/
def final_rank_le (prec : List CatalogSourceKind)
    (left right : ResolutionCandidate) : Prop :=
  ((rank_candidates left right).then
    (compare (precedence_index left.provider_kind prec)
      (precedence_index right.provider_kind prec))) ≠ Ordering.gt

instance (prec : List CatalogSourceKind) : DecidableRel (final_rank_le prec) :=
  fun a b => by
  unfold final_rank_le
  infer_instance

/-- Formatting of one `no_match_reasons` line in `resolve`. -/
def no_match_line (c : ResolutionCandidate) : String :=
  c.provider_id ++ ":" ++ c.template_id ++ " " ++
    (c.excluded_reason.getD "no ranking winner")

/-- Model of `CatalogManager::resolve`. The manager state is its template
index (`templates`, already sorted by `reload`) and the `org_enabled` flag. -/
def resolve (templates : List CatalogTemplate) (org_enabled : Bool)
    (intent : UiIntent) : ResolutionResult :=
  let prec := precedence org_enabled
  let sel := selection templates org_enabled intent
  let selected : Option CatalogTemplate := sel.bind fun p =>
    templates.find? fun t =>
      t.template_id == p.2.template_id &&
        t.source.provider_id == p.2.provider_id
  let ranked_marked := (initial_ranked templates intent prec).map
    (mark_candidate prec sel)
  let ranked := List.insertionSort (final_rank_le prec) ranked_marked
  let no_match_reasons :=
    if selected.isNone then
      if ranked.isEmpty then ["catalog index contains no templates"]
      else ranked.map no_match_line
    else []
  { selected := selected
    trace :=
      { intent := intent
        provider_precedence := prec
        selected_template_id := selected.map (fun t => t.template_id)
        selected_provider_id := selected.map (fun t => t.source.provider_id)
        selected_score := (ranked.find? (fun c => c.selected)).map
          (fun c => c.score)
        ranked_candidates := ranked
        no_match_reasons := no_match_reasons } }

/-! ### Ordering helpers for the ranking comparator -/

/-- Case analysis for `Ordering.then` yielding `lt`. -/
theorem ordering_then_eq_lt (o1 o2 : Ordering) :
    o1.then o2 = .lt ↔ o1 = .lt ∨ (o1 = .eq ∧ o2 = .lt) := by
  cases o1 <;> simp [Ordering.then]

/-- Case analysis for `Ordering.then` yielding `eq`. -/
theorem ordering_then_eq_eq (o1 o2 : Ordering) :
    o1.then o2 = .eq ↔ o1 = .eq ∧ o2 = .eq := by
  cases o1 <;> simp [Ordering.then]

/-- Case analysis for `Ordering.then` yielding `gt`. -/
theorem ordering_then_eq_gt (o1 o2 : Ordering) :
    o1.then o2 = .gt ↔ o1 = .gt ∨ (o1 = .eq ∧ o2 = .gt) := by
  cases o1 <;> simp [Ordering.then]

/-- Characterization of `rank_candidates` returning `lt`: strictly better
rank, i.e. higher score, or equal score and lexicographically smaller
template id, or equal score and template id and smaller provider id. -/
theorem rank_candidates_eq_lt_iff (l r : ResolutionCandidate) :
    rank_candidates l r = .lt ↔
      (r.score < l.score ∨ (l.score = r.score ∧
        (l.template_id < r.template_id ∨ (l.template_id = r.template_id ∧
          l.provider_id < r.provider_id)))) := by
  unfold rank_candidates
  rw [ordering_then_eq_lt, ordering_then_eq_lt, ordering_then_eq_eq]
  rw [compare_lt_iff_lt, compare_eq_iff_eq, compare_lt_iff_lt,
    compare_eq_iff_eq, compare_lt_iff_lt]
  constructor
  · rintro ((h | ⟨h1, h2⟩) | ⟨⟨h1, h2⟩, h3⟩)
    · exact Or.inl h
    · exact Or.inr ⟨h1.symm, Or.inl h2⟩
    · exact Or.inr ⟨h1.symm, Or.inr ⟨h2, h3⟩⟩
  · rintro (h | ⟨h1, (h2 | ⟨h2, h3⟩)⟩)
    · exact Or.inl (Or.inl h)
    · exact Or.inl (Or.inr ⟨h1.symm, h2⟩)
    · exact Or.inr ⟨⟨h1.symm, h2⟩, h3⟩

/-- Characterization of `rank_candidates` returning `eq`: the ranking key
(score, template id, provider id) coincides, so no distinct keys ever tie. -/
theorem rank_candidates_eq_eq_iff (l r : ResolutionCandidate) :
    rank_candidates l r = .eq ↔
      (l.score = r.score ∧ l.template_id = r.template_id ∧
        l.provider_id = r.provider_id) := by
  unfold rank_candidates
  rw [ordering_then_eq_eq, ordering_then_eq_eq]
  rw [compare_eq_iff_eq, compare_eq_iff_eq, compare_eq_iff_eq]
  constructor
  · rintro ⟨⟨h1, h2⟩, h3⟩
    exact ⟨h1.symm, h2, h3⟩
  · rintro ⟨h1, h2, h3⟩
    exact ⟨⟨h1.symm, h2⟩, h3⟩

/-- Characterization of `rank_candidates` returning `gt`. -/
theorem rank_candidates_eq_gt_iff (l r : ResolutionCandidate) :
    rank_candidates l r = .gt ↔
      (l.score < r.score ∨ (l.score = r.score ∧
        (r.template_id < l.template_id ∨ (l.template_id = r.template_id ∧
          r.provider_id < l.provider_id)))) := by
  unfold rank_candidates
  rw [ordering_then_eq_gt, ordering_then_eq_gt, ordering_then_eq_eq]
  rw [compare_gt_iff_gt, compare_eq_iff_eq, compare_gt_iff_gt,
    compare_eq_iff_eq, compare_gt_iff_gt]
  constructor
  · rintro ((h | ⟨h1, h2⟩) | ⟨⟨h1, h2⟩, h3⟩)
    · exact Or.inl h
    · exact Or.inr ⟨h1.symm, Or.inl h2⟩
    · exact Or.inr ⟨h1.symm, Or.inr ⟨h2, h3⟩⟩
  · rintro (h | ⟨h1, (h2 | ⟨h2, h3⟩)⟩)
    · exact Or.inl (Or.inl h)
    · exact Or.inl (Or.inr ⟨h1.symm, h2⟩)
    · exact Or.inr ⟨⟨h1.symm, h2⟩, h3⟩

/-- Lexicographic sort key realizing the ranking comparator as a linear
order: score negated (descending) first, then template id, then provider
id. -/
def candidate_key (c : ResolutionCandidate) :
    Int ×ₗ (String ×ₗ String) :=
  toLex (-c.score, toLex (c.template_id, c.provider_id))

/-- Bridge between the comparator relation and the linear order on sort
keys. -/
theorem candidate_rank_le_iff_key (l r : ResolutionCandidate) :
    candidate_rank_le l r ↔ candidate_key l ≤ candidate_key r := by
  have hne : candidate_rank_le l r ↔
      (rank_candidates l r = .lt ∨ rank_candidates l r = .eq) := by
    unfold candidate_rank_le
    rcases h : rank_candidates l r <;> simp
  rw [hne, rank_candidates_eq_lt_iff, rank_candidates_eq_eq_iff]
  unfold candidate_key
  rw [Prod.Lex.le_iff, Prod.Lex.le_iff]
  simp only [neg_lt_neg_iff, neg_inj, le_iff_lt_or_eq]
  tauto

instance : IsTotal ResolutionCandidate candidate_rank_le := by
  constructor
  intro a b
  rw [candidate_rank_le_iff_key, candidate_rank_le_iff_key]
  exact le_total _ _

instance : IsTrans ResolutionCandidate candidate_rank_le := by
  constructor
  intro a b c hab hbc
  rw [candidate_rank_le_iff_key] at *
  exact le_trans hab hbc

/-! ### List helper lemmas shared across the development -/

/-- Helper: `findSome?` over `range n` returns the value at the first index
whose image is `some`. -/
theorem findSome_range_eq_some {β : Type} {f : Nat → Option β} {n i : Nat}
    {v : β} (hi : i < n) (h0 : ∀ j, j < i → f j = none) (hf : f i = some v) :
    (List.range n).findSome? f = some v := by
  induction n with
  | zero => omega
  | succ m ih =>
    rw [List.range_succ, List.findSome?_append]
    by_cases hm : i < m
    · rw [ih hm]
      rfl
    · have him : i = m := by omega
      have hnone : (List.range m).findSome? f = none := by
        rw [List.findSome?_eq_none_iff]
        intro j hj
        have hj2 : j < m := List.mem_range.mp hj
        exact h0 j (by omega)
      rw [hnone, Option.none_or]
      simp [him ▸ hf]

/-- Helper: an insertion sort of a non-empty list is non-empty. -/
theorem insertionSort_ne_nil {α : Type} (r : α → α → Prop) [DecidableRel r]
    {l : List α} (h : l ≠ []) : List.insertionSort r l ≠ [] := by
  intro hnil
  have := (List.perm_insertionSort r l).length_eq
  rw [hnil] at this
  exact h (List.length_eq_zero.mp this.symm)

/-- Helper: a record in a tier candidate list comes from a primary-matching
template of that tier. -/
theorem tier_candidates_mem_spec {templates : List CatalogTemplate}
    {intent : UiIntent} {prec : List CatalogSourceKind} {i : Nat}
    {c : ResolutionCandidate}
    (h : c ∈ tier_candidates templates intent prec i) :
    ∃ t ∈ templates, tier_index prec t.source.kind = some i ∧
      strTrim t.document.match_rules.primary = strTrim intent.primary ∧
      c = candidate_of intent t := by
  unfold tier_candidates at h
  rcases List.mem_filterMap.mp h with ⟨t, ht, hf⟩
  refine ⟨t, ht, ?_⟩
  rcases hidx : tier_index prec t.source.kind with _ | j <;> rw [hidx] at hf
  · simp at hf
  · dsimp only at hf
    split_ifs at hf with hj hp
    · subst hj
      exact ⟨rfl, hp, (Option.some_inj.mp hf).symm⟩

/-- Helper: a primary-matching template of tier `i` contributes its candidate
record to that tier list. -/
theorem tier_candidates_mem_of {templates : List CatalogTemplate}
    {intent : UiIntent} {prec : List CatalogSourceKind} {i : Nat}
    {t : CatalogTemplate} (ht : t ∈ templates)
    (hidx : tier_index prec t.source.kind = some i)
    (hp : strTrim t.document.match_rules.primary = strTrim intent.primary) :
    candidate_of intent t ∈ tier_candidates templates intent prec i := by
  unfold tier_candidates
  refine List.mem_filterMap.mpr ⟨t, ht, ?_⟩
  rw [hidx]
  dsimp only
  rw [if_pos rfl, if_pos hp]

/-- Helper: when the tier walk produced a winner, the template index lookup
of `resolve` succeeds and returns a template carrying the winner's ids. -/
theorem selection_find_spec {templates : List CatalogTemplate}
    {org_enabled : Bool} {intent : UiIntent} {p : Nat × ResolutionCandidate}
    (h : selection templates org_enabled intent = some p) :
    ∃ t2, templates.find? (fun t =>
        t.template_id == p.2.template_id &&
          t.source.provider_id == p.2.provider_id) = some t2 ∧
      t2.template_id = p.2.template_id ∧
      t2.source.provider_id = p.2.provider_id := by
  unfold selection at h
  rcases List.exists_of_findSome?_eq_some h with ⟨i, hi, hf⟩
  rcases Option.map_eq_some'.mp hf with ⟨best, hhead, hpair⟩
  have hmem : best ∈ tier_candidates templates intent (precedence org_enabled) i :=
    (List.perm_insertionSort _ _).mem_iff.mp (List.mem_of_mem_head? hhead)
  rcases tier_candidates_mem_spec hmem with ⟨t, ht, _, _, hc⟩
  have hbest2 : p.2 = best := by rw [← hpair]
  have htid : t.template_id = best.template_id := by
    rw [hc]
    rfl
  have hpid : t.source.provider_id = best.provider_id := by
    rw [hc]
    rfl
  have hex : ∃ x ∈ templates, (x.template_id == p.2.template_id &&
      x.source.provider_id == p.2.provider_id) = true := by
    refine ⟨t, ht, ?_⟩
    rw [hbest2, htid, hpid]
    simp
  have hsome := List.find?_isSome.mpr hex
  rcases Option.isSome_iff_exists.mp hsome with ⟨t2, ht2⟩
  have hpred := List.find?_some ht2
  simp only [Bool.and_eq_true, beq_iff_eq] at hpred
  exact ⟨t2, ht2, hpred.1, hpred.2⟩

/-- C1: over any catalog index and intent, the first precedence tier holding
at least one candidate (a template whose trimmed match primary equals the
trimmed intent primary) supplies the resolution winner, namely that tier's
top-ranked candidate, regardless of candidate scores in lower tiers. -/
theorem c1_tier_precedence_wins (templates : List CatalogTemplate)
    (org_enabled : Bool) (intent : UiIntent) (i : Nat)
    (hi : i < (precedence org_enabled).length)
    (hne : tier_candidates templates intent (precedence org_enabled) i ≠ [])
    (hmin : ∀ j, j < i →
      tier_candidates templates intent (precedence org_enabled) j = []) :
    ∃ best,
      (List.insertionSort candidate_rank_le
        (tier_candidates templates intent (precedence org_enabled) i)).head? =
          some best ∧
      (resolve templates org_enabled intent).trace.selected_template_id =
        some best.template_id ∧
      (resolve templates org_enabled intent).trace.selected_provider_id =
        some best.provider_id ∧
      (resolve templates org_enabled intent).selected.isSome := by
  have hsorted_ne := insertionSort_ne_nil candidate_rank_le hne
  set sorted := List.insertionSort candidate_rank_le
    (tier_candidates templates intent (precedence org_enabled) i) with hsorted
  refine ⟨sorted.head hsorted_ne, List.head?_eq_head hsorted_ne, ?_⟩
  set best := sorted.head hsorted_ne with hbest
  have hsel : selection templates org_enabled intent = some (i, best) := by
    unfold selection
    refine findSome_range_eq_some hi ?_ ?_
    · intro j hj
      rw [hmin j hj]
      rfl
    · rw [← hsorted, List.head?_eq_head hsorted_ne]
      rfl
  rcases selection_find_spec hsel with ⟨t2, hfind, htid, hpid⟩
  have hres : (resolve templates org_enabled intent).selected = some t2 := by
    simp only [resolve, hsel, Option.bind_eq_bind, Option.some_bind]
    exact hfind
  refine ⟨?_, ?_, ?_⟩
  · simp only [resolve, hsel, Option.bind_eq_bind, Option.some_bind, hfind]
    simp [htid]
  · simp only [resolve, hsel, Option.bind_eq_bind, Option.some_bind, hfind]
    simp [hpid]
  · rw [hres]
    rfl

/-- Demo catalog template on the user tier with a weak (zero) secondary
score. -/
def demoUserTemplate : CatalogTemplate :=
  { document :=
      { meta := { id := "user.a", title := "User A", version := "1", tags := [] }
        match_rules := { primary := "p", operations := [], tags := [] }
        schema := JsonValue.null }
    source := { provider_id := "user-local", kind := .user, read_only := false } }

/-- Demo catalog template on the builtin tier with a high secondary score. -/
def demoBuiltinTemplate : CatalogTemplate :=
  { document :=
      { meta := { id := "builtin.b", title := "Builtin B", version := "1", tags := [] }
        match_rules := { primary := "p", operations := ["x"], tags := [] }
        schema := JsonValue.null }
    source := { provider_id := "builtin-default", kind := .builtin, read_only := true } }

/-- Demo intent matching both demo templates on primary, and the builtin
template on operations. -/
def demoIntent : UiIntent :=
  { primary := "p", operations := ["x"], tags := [] }

/-- Witness for the tier precedence theorem: with a zero-score user candidate
and a high-score builtin candidate, the user tier still supplies the winner. -/
theorem c1_tier_precedence_wins_witness :
    0 < (precedence false).length ∧
    tier_candidates [demoUserTemplate, demoBuiltinTemplate] demoIntent
      (precedence false) 0 ≠ [] ∧
    (∃ best,
      (List.insertionSort candidate_rank_le
        (tier_candidates [demoUserTemplate, demoBuiltinTemplate] demoIntent
          (precedence false) 0)).head? = some best ∧
      (resolve [demoUserTemplate, demoBuiltinTemplate] false
        demoIntent).trace.selected_template_id = some best.template_id ∧
      (resolve [demoUserTemplate, demoBuiltinTemplate] false
        demoIntent).trace.selected_provider_id = some best.provider_id ∧
      (resolve [demoUserTemplate, demoBuiltinTemplate] false
        demoIntent).selected.isSome) :=
  ⟨by decide, by decide,
    c1_tier_precedence_wins [demoUserTemplate, demoBuiltinTemplate] false
      demoIntent 0 (by decide) (by decide)
      (fun j hj => absurd hj (Nat.not_lt_zero j))⟩

/-- C2: the secondary score of a candidate is ten times the size of the
operations intersection plus four times the size of the tags intersection,
plus two when the operations sets are exactly equal and non-empty, plus one
when the tags sets are exactly equal and non-empty; and the within-tier
ranking comparator orders candidates by score descending, then template id
ascending, then provider id ascending, a total order whose ties are exactly
identical ranking keys, so that the ranked candidate list of a tier is a
deterministically ordered permutation of its candidates. -/
theorem c2_secondary_score_and_ranking :
    (∀ (intent : UiIntent) (template : CatalogTemplate),
      (score_secondary intent template).total =
        10 * ((template.document.match_rules.operations.toFinset ∩
          intent.operations.toFinset).card : Int) +
        4 * ((template.document.match_rules.tags.toFinset ∩
          intent.tags.toFinset).card : Int) +
        (if template.document.match_rules.operations.toFinset =
            intent.operations.toFinset ∧
            template.document.match_rules.operations.toFinset ≠ ∅ then 2
          else 0) +
        (if template.document.match_rules.tags.toFinset =
            intent.tags.toFinset ∧
            template.document.match_rules.tags.toFinset ≠ ∅ then 1 else 0)) ∧
    (∀ l r : ResolutionCandidate, rank_candidates l r = .lt ↔
      (r.score < l.score ∨ (l.score = r.score ∧
        (l.template_id < r.template_id ∨ (l.template_id = r.template_id ∧
          l.provider_id < r.provider_id))))) ∧
    (∀ l r : ResolutionCandidate, rank_candidates l r = .eq ↔
      (l.score = r.score ∧ l.template_id = r.template_id ∧
        l.provider_id = r.provider_id)) ∧
    (∀ cl : List ResolutionCandidate,
      List.Sorted candidate_rank_le (List.insertionSort candidate_rank_le cl) ∧
      (List.insertionSort candidate_rank_le cl).Perm cl) := by
  refine ⟨?_, rank_candidates_eq_lt_iff, rank_candidates_eq_eq_iff, ?_⟩
  · intro intent template
    simp only [score_secondary]
    have e1 : (if (template.document.match_rules.operations.toFinset ≠ ∅ ∧
        template.document.match_rules.operations.toFinset =
          intent.operations.toFinset) then (2 : Int) else 0) =
        (if (template.document.match_rules.operations.toFinset =
          intent.operations.toFinset ∧
          template.document.match_rules.operations.toFinset ≠ ∅) then 2
          else 0) := if_congr and_comm rfl rfl
    have e2 : (if (template.document.match_rules.tags.toFinset ≠ ∅ ∧
        template.document.match_rules.tags.toFinset =
          intent.tags.toFinset) then (1 : Int) else 0) =
        (if (template.document.match_rules.tags.toFinset =
          intent.tags.toFinset ∧
          template.document.match_rules.tags.toFinset ≠ ∅) then 1
          else 0) := if_congr and_comm rfl rfl
    rw [e1, e2]
    ring
  · intro cl
    exact ⟨List.sorted_insertionSort candidate_rank_le cl,
      List.perm_insertionSort candidate_rank_le cl⟩

/-- Helper: when the tier walk found no winner, the template lookup is
skipped and `resolve` selects nothing; conversely a winning tier always
yields a selected template, so a `none` selection implies an empty tier
walk. -/
theorem resolve_selected_none_selection_none {templates : List CatalogTemplate}
    {org_enabled : Bool} {intent : UiIntent}
    (h : (resolve templates org_enabled intent).selected = none) :
    selection templates org_enabled intent = none := by
  rcases hsel : selection templates org_enabled intent with _ | p
  · rfl
  · exfalso
    rcases selection_find_spec hsel with ⟨t2, hfind, _, _⟩
    have hres : (resolve templates org_enabled intent).selected = some t2 := by
      simp only [resolve, hsel, Option.bind_eq_bind, Option.some_bind]
      exact hfind
    rw [h] at hres
    exact Option.noConfusion hres

/-- Helper: an empty tier walk means every precedence tier has an empty
candidate list. -/
theorem selection_none_tier_empty {templates : List CatalogTemplate}
    {org_enabled : Bool} {intent : UiIntent}
    (h : selection templates org_enabled intent = none) :
    ∀ i, i < (precedence org_enabled).length →
      tier_candidates templates intent (precedence org_enabled) i = [] := by
  intro i hi
  unfold selection at h
  rw [List.findSome?_eq_none_iff] at h
  have hnone := h i (List.mem_range.mpr hi)
  rcases hs : List.insertionSort candidate_rank_le
      (tier_candidates templates intent (precedence org_enabled) i) with _ | ⟨c, cs⟩
  · have hperm := List.perm_insertionSort candidate_rank_le
      (tier_candidates templates intent (precedence org_enabled) i)
    rw [hs] at hperm
    exact (hperm.symm.eq_nil)
  · rw [hs] at hnone
    simp at hnone

/-- Helper: marking with no selection leaves every candidate unchanged. -/
theorem map_mark_candidate_none (prec : List CatalogSourceKind)
    (l : List ResolutionCandidate) : l.map (mark_candidate prec none) = l := by
  rw [List.map_congr_left (fun c _ => (rfl : mark_candidate prec none c = c))]
  exact List.map_id l

/-- Helper: a recorded tier index is a position within the precedence
list. -/
theorem tier_index_lt_length {prec : List CatalogSourceKind}
    {kind : CatalogSourceKind} {j : Nat} (h : tier_index prec kind = some j) :
    j < prec.length := by
  unfold tier_index at h
  rcases List.findIdx?_eq_some_iff_getElem.mp h with ⟨hlt, _, _⟩
  exact hlt

/-- Demo catalog template on the org tier; with the org tier disabled it is
skipped entirely by `resolve`. -/
def orgOnlyTemplate : CatalogTemplate :=
  { document :=
      { meta := { id := "org.a", title := "Org A", version := "1", tags := [] }
        match_rules := { primary := "p", operations := [], tags := [] }
        schema := JsonValue.null }
    source := { provider_id := "org-remote", kind := .org, read_only := true } }

/-- Counterexample for C5: with the org tier disabled, an index holding only
an org-tier template resolves to no selection with the single reason
"catalog index contains no templates", although the index is not empty and
the org template is excluded without being listed. -/
theorem c5_counterexample_single_reason_nonempty_index :
    (resolve [orgOnlyTemplate] false demoIntent).selected = none ∧
    (resolve [orgOnlyTemplate] false demoIntent).trace.no_match_reasons =
      ["catalog index contains no templates"] ∧
    ([orgOnlyTemplate] : List CatalogTemplate) ≠ [] :=
  ⟨rfl, by decide, by simp⟩

/-- C5 (amended): when `resolve` selects nothing, `no_match_reasons` is
non-empty; it is exactly the single reason "catalog index contains no
templates" whenever no template of the index lies in a precedence tier
(in particular when the index is empty, but also when a non-empty index
holds only templates of disabled tiers); and every template that does lie in
a precedence tier is listed with its primary-mismatch exclusion reason. -/
theorem c5_no_match_reasons (templates : List CatalogTemplate)
    (org_enabled : Bool) (intent : UiIntent)
    (hnone : (resolve templates org_enabled intent).selected = none) :
    (resolve templates org_enabled intent).trace.no_match_reasons ≠ [] ∧
    ((∀ t ∈ templates,
        tier_index (precedence org_enabled) t.source.kind = none) →
      (resolve templates org_enabled intent).trace.no_match_reasons =
        ["catalog index contains no templates"]) ∧
    (∀ t ∈ templates, ∀ j,
      tier_index (precedence org_enabled) t.source.kind = some j →
      no_match_line (excluded_of intent t) ∈
        (resolve templates org_enabled intent).trace.no_match_reasons) := by
  have hsel := resolve_selected_none_selection_none hnone
  have htier := selection_none_tier_empty hsel
  have hreasons : (resolve templates org_enabled intent).trace.no_match_reasons =
      (if (List.insertionSort (final_rank_le (precedence org_enabled))
          (initial_ranked templates intent (precedence org_enabled))).isEmpty
        then ["catalog index contains no templates"]
        else (List.insertionSort (final_rank_le (precedence org_enabled))
          (initial_ranked templates intent (precedence org_enabled))).map
            no_match_line) := by
    simp only [resolve, hsel, Option.bind_eq_bind, Option.none_bind,
      Option.isNone_none, map_mark_candidate_none, if_true]
  refine ⟨?_, ?_, ?_⟩
  · rw [hreasons]
    by_cases hemp : List.insertionSort (final_rank_le (precedence org_enabled))
        (initial_ranked templates intent (precedence org_enabled)) = []
    · rw [hemp]
      simp
    · have hb : ¬((List.insertionSort (final_rank_le (precedence org_enabled))
          (initial_ranked templates intent (precedence org_enabled))).isEmpty =
            true) := by
        simpa [List.isEmpty_iff] using hemp
      rw [if_neg hb]
      simp [List.map_eq_nil_iff, hemp]
  · intro hall
    have hinit : initial_ranked templates intent (precedence org_enabled) = [] := by
      unfold initial_ranked
      rw [List.filterMap_eq_nil_iff]
      intro t ht
      rw [hall t ht]
    rw [hreasons, hinit]
    rfl
  · intro t ht j hj
    by_cases hp : strTrim t.document.match_rules.primary = strTrim intent.primary
    · exfalso
      have hmem := tier_candidates_mem_of ht hj hp
      rw [htier j (tier_index_lt_length hj)] at hmem
      exact List.not_mem_nil _ hmem
    · have hmem : excluded_of intent t ∈
          initial_ranked templates intent (precedence org_enabled) := by
        unfold initial_ranked
        refine List.mem_filterMap.mpr ⟨t, ht, ?_⟩
        rw [hj]
        dsimp only
        rw [if_neg hp]
      have hmem2 : excluded_of intent t ∈
          List.insertionSort (final_rank_le (precedence org_enabled))
            (initial_ranked templates intent (precedence org_enabled)) :=
        (List.perm_insertionSort _ _).mem_iff.mpr hmem
      have hb : ¬((List.insertionSort (final_rank_le (precedence org_enabled))
          (initial_ranked templates intent (precedence org_enabled))).isEmpty =
            true) := by
        simpa [List.isEmpty_iff] using List.ne_nil_of_mem hmem2
      rw [hreasons, if_neg hb]
      exact List.mem_map_of_mem no_match_line hmem2

/-! ### Schema validation data model (`src/ui/schema.rs`) -/

/-- Model of `MAX_COMPONENTS`. -/
def MAX_COMPONENTS : Nat := 64

/-- Model of `MAX_DEPTH`. -/
def MAX_DEPTH : Nat := 4

/-- Model of `ComponentKind`, including the catch-all unknown variant. -/
inductive ComponentKind where
  | markdown
  | form
  | code
  | diff
  | button
  | unknown (kind : String)
deriving DecidableEq

/-- Model of `ComponentKind::as_str`. -/
def ComponentKind.as_str : ComponentKind → String
  | .markdown => "markdown"
  | .form => "form"
  | .code => "code"
  | .diff => "diff"
  | .button => "button"
  | .unknown kind => kind

/-- Model of `ComponentKind::is_actionable`. -/
def ComponentKind.is_actionable : ComponentKind → Bool
  | .form => true
  | .button => true
  | _ => false

/-- Discriminator for the unknown component variant, modelling the
`matches!(&raw.kind, ComponentKind::Unknown(_))` test. -/
def ComponentKind.is_unknown : ComponentKind → Bool
  | .unknown _ => true
  | _ => false

/-- Model of `FormFieldKind`. -/
inductive FormFieldKind where
  | text
  | number
  | select
  | checkbox
  | unknown (kind : String)
deriving DecidableEq

/-- Model of `FormFieldKind::as_str`. -/
def FormFieldKind.as_str : FormFieldKind → String
  | .text => "text"
  | .number => "number"
  | .select => "select"
  | .checkbox => "checkbox"
  | .unknown kind => kind

/-- Discriminator for the unknown field-kind variant. -/
def FormFieldKind.is_unknown : FormFieldKind → Bool
  | .unknown _ => true
  | _ => false

/-- Model of `ButtonStyle`. -/
inductive ButtonStyle where
  | primary
  | secondary
deriving DecidableEq

/-- Model of `DiffLineKind`. -/
inductive DiffLineKind where
  | added
  | removed
  | context
deriving DecidableEq

/-- Model of `DiffLine`. -/
structure DiffLine where
  kind : DiffLineKind
  text : String
deriving DecidableEq

/-- Model of `OutputContract`. -/
structure OutputContract where
  component_id : String
  event_id : String
deriving DecidableEq

/-- Model of `RawFormField`; an absent `default` deserializes to JSON
null. -/
structure RawFormField where
  id : String
  label : String
  kind : FormFieldKind
  options : List String
  default : JsonValue

/-- Model of `RawComponent`: the untrusted component tree node. -/
inductive RawComponent where
  | mk (id : String) (kind : ComponentKind) (title : Option String)
    (text : Option String) (fields : List RawFormField)
    (language : Option String) (code : Option String) (lines : List DiffLine)
    (label : Option String) (variant : Option ButtonStyle)
    (children : List RawComponent)

/-- The id of a raw component. -/
def RawComponent.id : RawComponent → String
  | .mk i _ _ _ _ _ _ _ _ _ _ => i

/-- The kind of a raw component. -/
def RawComponent.kind : RawComponent → ComponentKind
  | .mk _ k _ _ _ _ _ _ _ _ _ => k

/-- The button variant of a raw component. -/
def RawComponent.variant : RawComponent → Option ButtonStyle
  | .mk _ _ _ _ _ _ _ _ _ v _ => v

/-- The children of a raw component. -/
def RawComponent.children : RawComponent → List RawComponent
  | .mk _ _ _ _ _ _ _ _ _ _ ch => ch

/-- Model of `UiSchema`: the parsed but unvalidated schema document. -/
structure UiSchema where
  schema_version : Nat
  outputs : List OutputContract
  components : List RawComponent

/-- Model of `ValidatedFormField`. -/
inductive ValidatedFormField where
  | text (id label default : String)
  | number (id label : String) (default : Rat)
  | select (id label : String) (options : List String) (default : String)
  | checkbox (id label : String) (default : Bool)
deriving DecidableEq

/-- Model of `ValidatedFormField::id`. -/
def ValidatedFormField.id : ValidatedFormField → String
  | .text i _ _ => i
  | .number i _ _ => i
  | .select i _ _ _ => i
  | .checkbox i _ _ => i

/-- Model of `UiFieldValue` (`src/ui/event.rs`). -/
inductive UiFieldValue where
  | text (value : String)
  | number (value : Rat)
  | select (value : String)
  | checkbox (value : Bool)
deriving DecidableEq

/-- Model of `ValidatedFormField::default_value`. -/
def ValidatedFormField.default_value : ValidatedFormField → UiFieldValue
  | .text _ _ d => .text d
  | .number _ _ d => .number d
  | .select _ _ _ d => .select d
  | .checkbox _ _ d => .checkbox d

/-- Model of `ValidatedComponent`; the per-kind Rust payload structs
(`MarkdownComponent` and friends) are flattened into constructor fields. -/
inductive ValidatedComponent where
  | markdown (id text : String) (children : List ValidatedComponent)
  | form (id : String) (title : Option String)
    (fields : List ValidatedFormField) (children : List ValidatedComponent)
  | code (id : String) (language : Option String) (code : String)
    (children : List ValidatedComponent)
  | diff (id : String) (lines : List DiffLine)
    (children : List ValidatedComponent)
  | button (id label output_event_id : String) (variant : ButtonStyle)
    (children : List ValidatedComponent)

/-- Model of `ValidatedComponent::children`. -/
def ValidatedComponent.children : ValidatedComponent → List ValidatedComponent
  | .markdown _ _ ch => ch
  | .form _ _ _ ch => ch
  | .code _ _ _ ch => ch
  | .diff _ _ ch => ch
  | .button _ _ _ _ ch => ch

/-- Model of `ValidatedSchema`. -/
structure ValidatedSchema where
  schema_version : Nat
  components : List ValidatedComponent

/-- Model of `ValidationError`. -/
inductive ValidationError where
  | unknownComponent (component_id kind : String)
  | unsupportedFieldType (form_id field_id kind : String)
  | missingRequiredField (component_id : String) (field : String)
  | tooManyComponents (max actual : Nat)
  | nestingTooDeep (max actual : Nat) (component_id : String)
  | duplicateActionableId (component_id : String)
  | missingButtonOutputContract (button_id : String)
deriving DecidableEq

/-- Model of the `Display` rendering of `ValidationError`. -/
def ValidationError.render : ValidationError → String
  | .unknownComponent component_id kind =>
    "unknown component kind `" ++ kind ++ "` for component `" ++
      component_id ++ "`"
  | .unsupportedFieldType form_id field_id kind =>
    "unsupported field kind `" ++ kind ++ "` for form `" ++ form_id ++
      "` field `" ++ field_id ++ "`"
  | .missingRequiredField component_id field =>
    "missing required field `" ++ field ++ "` for component `" ++
      component_id ++ "`"
  | .tooManyComponents max actual =>
    "component count " ++ toString actual ++ " exceeds max " ++ toString max
  | .nestingTooDeep max actual component_id =>
    "component `" ++ component_id ++ "` nesting depth " ++ toString actual ++
      " exceeds max " ++ toString max
  | .duplicateActionableId component_id =>
    "duplicate actionable component id `" ++ component_id ++ "`"
  | .missingButtonOutputContract button_id =>
    "button `" ++ button_id ++ "` missing output contract mapping"

/-- Model of the `SchemaRegistry` trait: an injected allow-list capability. -/
structure SchemaRegistry where
  supports_component : ComponentKind → Bool
  supports_field_kind : FormFieldKind → Bool

/-- Model of `ComponentRegistry::new` (`src/ui/registry.rs`) viewed through
its `SchemaRegistry` implementation. -/
def componentRegistry : SchemaRegistry :=
  { supports_component := fun kind =>
      ["markdown", "form", "code", "diff", "button"].contains kind.as_str
    supports_field_kind := fun kind =>
      ["text", "number", "select", "checkbox"].contains kind.as_str }

/-- Model of `as_string_or_default`. -/
def as_string_or_default (value : JsonValue) (default : String) : String :=
  (value.as_str).getD default

/-- Model of `as_f64_or_default`. -/
def as_f64_or_default (value : JsonValue) (default : Rat) : Rat :=
  (value.as_f64).getD default

/-- Model of `as_bool_or_default`. -/
def as_bool_or_default (value : JsonValue) (default : Bool) : Bool :=
  (value.as_bool).getD default

/-- Model of `field_key`. -/
def field_key (form_id field_id : String) : String :=
  form_id ++ ":" ++ field_id

/-- Output-contract map of `validate_schema`: a `BTreeMap` collected from
the outputs list, so a later duplicate component id overwrites an earlier
one. -/
def schema_output_map (outputs : List OutputContract) :
    List (String × String) :=
  outputs.foldl (fun m o => assocInsert m o.component_id o.event_id) []

/-- Model of `validate_form_fields`. -/
def validate_form_fields (form_id : String) (raw_fields : List RawFormField)
    (registry : SchemaRegistry) :
    Except ValidationError (List ValidatedFormField) :=
  match raw_fields with
  | [] => .ok []
  | field :: rest =>
    if field.kind.is_unknown || !(registry.supports_field_kind field.kind) then
      .error (.unsupportedFieldType form_id field.id field.kind.as_str)
    else
      let validated : Except ValidationError ValidatedFormField :=
        match field.kind with
        | .text => .ok (.text field.id field.label
            (as_string_or_default field.default ""))
        | .number => .ok (.number field.id field.label
            (as_f64_or_default field.default 0))
        | .select => .ok (.select field.id field.label field.options
            (as_string_or_default field.default
              ((field.options.head?).getD "")))
        | .checkbox => .ok (.checkbox field.id field.label
            (as_bool_or_default field.default false))
        | .unknown kind => .error (.unsupportedFieldType form_id field.id kind)
      match validated with
      | .error e => .error e
      | .ok v =>
        match validate_form_fields form_id rest registry with
        | .error e => .error e
        | .ok vs => .ok (v :: vs)

/-- Per-kind construction step of `validate_components`, applied after the
children have been validated: required-field checks and the validated
component record. -/
def build_component (registry : SchemaRegistry)
    (output_map : List (String × String)) (id : String) (kind : ComponentKind)
    (title text : Option String) (fields : List RawFormField)
    (language code : Option String) (lines : List DiffLine)
    (label : Option String) (variant : Option ButtonStyle)
    (children_v : List ValidatedComponent) :
    Except ValidationError ValidatedComponent :=
  match kind with
  | .markdown =>
    match text with
    | some tx => .ok (.markdown id tx children_v)
    | none => .error (.missingRequiredField id "text")
  | .form =>
    match validate_form_fields id fields registry with
    | .error e => .error e
    | .ok fields_v => .ok (.form id title fields_v children_v)
  | .code =>
    match code with
    | some cd => .ok (.code id language cd children_v)
    | none => .error (.missingRequiredField id "code")
  | .diff => .ok (.diff id lines children_v)
  | .button =>
    match assocFind output_map id with
    | none => .error (.missingButtonOutputContract id)
    | some output_event_id =>
      match label with
      | some lb => .ok (.button id lb output_event_id
          (variant.getD .secondary) children_v)
      | none => .error (.missingRequiredField id "label")
  | .unknown kind => .error (.unknownComponent id kind)

/-- Model of `validate_components`: depth-first, left-to-right recursive
descent threading one shared component counter and one shared actionable-id
set across the whole tree. -/
def validate_components (registry : SchemaRegistry)
    (output_map : List (String × String)) (depth : Nat)
    (component_counter : Nat) (actionable_ids : List String) :
    List RawComponent → Except ValidationError
      (List ValidatedComponent × Nat × List String)
  | [] => .ok ([], component_counter, actionable_ids)
  | .mk id kind title text fields language code lines label variant children ::
      rest =>
    let cnt1 := component_counter + 1
    if cnt1 > MAX_COMPONENTS then
      .error (.tooManyComponents MAX_COMPONENTS cnt1)
    else if depth > MAX_DEPTH then
      .error (.nestingTooDeep MAX_DEPTH depth id)
    else if kind.is_unknown || !(registry.supports_component kind) then
      .error (.unknownComponent id kind.as_str)
    else if kind.is_actionable ∧ id ∈ actionable_ids then
      .error (.duplicateActionableId id)
    else
      let ids1 :=
        if kind.is_actionable then actionable_ids ++ [id] else actionable_ids
      match validate_components registry output_map (depth + 1) cnt1 ids1
          children with
      | .error e => .error e
      | .ok (children_v, cnt2, ids2) =>
        match build_component registry output_map id kind title text fields
            language code lines label variant children_v with
        | .error e => .error e
        | .ok comp =>
          match validate_components registry output_map depth cnt2 ids2
              rest with
          | .error e => .error e
          | .ok (rest_v, cnt3, ids3) => .ok (comp :: rest_v, cnt3, ids3)

/-- Model of `validate_schema`. -/
def validate_schema (schema : UiSchema) (registry : SchemaRegistry) :
    Except ValidationError ValidatedSchema :=
  match validate_components registry (schema_output_map schema.outputs) 1 0 []
      schema.components with
  | .error e => .error e
  | .ok (components, _, _) =>
    .ok { schema_version := schema.schema_version, components := components }

/-- Total number of components of a validated forest, counted across the
entire tree. -/
def component_count : List ValidatedComponent → Nat
  | [] => 0
  | .markdown _ _ ch :: rest => 1 + component_count ch + component_count rest
  | .form _ _ _ ch :: rest => 1 + component_count ch + component_count rest
  | .code _ _ _ ch :: rest => 1 + component_count ch + component_count rest
  | .diff _ _ ch :: rest => 1 + component_count ch + component_count rest
  | .button _ _ _ _ ch :: rest => 1 + component_count ch + component_count rest

/-- Nesting depth of a validated forest: zero for an empty forest, one for
childless top-level components. -/
def tree_depth : List ValidatedComponent → Nat
  | [] => 0
  | .markdown _ _ ch :: rest => max (1 + tree_depth ch) (tree_depth rest)
  | .form _ _ _ ch :: rest => max (1 + tree_depth ch) (tree_depth rest)
  | .code _ _ _ ch :: rest => max (1 + tree_depth ch) (tree_depth rest)
  | .diff _ _ ch :: rest => max (1 + tree_depth ch) (tree_depth rest)
  | .button _ _ _ _ ch :: rest => max (1 + tree_depth ch) (tree_depth rest)

/-- Helper: unfolded count of a non-empty validated forest. -/
theorem component_count_cons (c : ValidatedComponent)
    (rest : List ValidatedComponent) :
    component_count (c :: rest) =
      1 + component_count c.children + component_count rest := by
  cases c <;> simp [component_count, ValidatedComponent.children]

/-- Helper: unfolded depth of a non-empty validated forest. -/
theorem tree_depth_cons (c : ValidatedComponent)
    (rest : List ValidatedComponent) :
    tree_depth (c :: rest) =
      max (1 + tree_depth c.children) (tree_depth rest) := by
  cases c <;> simp [tree_depth, ValidatedComponent.children]

/-- Helper: a successfully built component keeps the validated children it
was given. -/
theorem build_component_children {registry : SchemaRegistry}
    {output_map : List (String × String)} {id : String} {kind : ComponentKind}
    {title text : Option String} {fields : List RawFormField}
    {language code : Option String} {lines : List DiffLine}
    {label : Option String} {variant : Option ButtonStyle}
    {children_v : List ValidatedComponent} {comp : ValidatedComponent}
    (h : build_component registry output_map id kind title text fields language
      code lines label variant children_v = .ok comp) :
    comp.children = children_v := by
  unfold build_component at h
  cases kind <;> dsimp only at h <;> (try split at h) <;> (try split at h) <;>
    first
      | (injection h with h2; subst h2; rfl)
      | simp at h

/-- Actionable id contributed by one validated component itself (spec
invariant: Form and Button are the actionable kinds). -/
def own_actionable : ValidatedComponent → List String
  | .form i _ _ _ => [i]
  | .button i _ _ _ _ => [i]
  | _ => []

/-- Button contract pair contributed by one validated component itself. -/
def own_buttons : ValidatedComponent → List (String × String)
  | .button i _ ev _ _ => [(i, ev)]
  | _ => []

/-- Actionable ids of a validated forest in traversal (preorder) order. -/
def v_actionable_ids : List ValidatedComponent → List String
  | [] => []
  | .markdown _ _ ch :: rest => v_actionable_ids ch ++ v_actionable_ids rest
  | .form i _ _ ch :: rest =>
    i :: (v_actionable_ids ch ++ v_actionable_ids rest)
  | .code _ _ _ ch :: rest => v_actionable_ids ch ++ v_actionable_ids rest
  | .diff _ _ ch :: rest => v_actionable_ids ch ++ v_actionable_ids rest
  | .button i _ _ _ ch :: rest =>
    i :: (v_actionable_ids ch ++ v_actionable_ids rest)

/-- Button id and output-event pairs of a validated forest in preorder. -/
def v_buttons : List ValidatedComponent → List (String × String)
  | [] => []
  | .markdown _ _ ch :: rest => v_buttons ch ++ v_buttons rest
  | .form _ _ _ ch :: rest => v_buttons ch ++ v_buttons rest
  | .code _ _ _ ch :: rest => v_buttons ch ++ v_buttons rest
  | .diff _ _ ch :: rest => v_buttons ch ++ v_buttons rest
  | .button i _ ev _ ch :: rest => (i, ev) :: (v_buttons ch ++ v_buttons rest)

/-- Actionable ids of a raw component forest in preorder. -/
def raw_actionable_ids : List RawComponent → List String
  | [] => []
  | .mk id kind _ _ _ _ _ _ _ _ ch :: rest =>
    (if kind.is_actionable then [id] else []) ++ raw_actionable_ids ch ++
      raw_actionable_ids rest

/-- Button ids of a raw component forest in preorder. -/
def raw_button_ids : List RawComponent → List String
  | [] => []
  | .mk id kind _ _ _ _ _ _ _ _ ch :: rest =>
    (if kind = .button then [id] else []) ++ raw_button_ids ch ++
      raw_button_ids rest

/-- Helper: unfolded actionable ids of a non-empty validated forest. -/
theorem v_actionable_ids_cons (c : ValidatedComponent)
    (rest : List ValidatedComponent) :
    v_actionable_ids (c :: rest) =
      own_actionable c ++ v_actionable_ids c.children ++
        v_actionable_ids rest := by
  cases c <;> simp [v_actionable_ids, own_actionable, ValidatedComponent.children]

/-- Helper: unfolded button pairs of a non-empty validated forest. -/
theorem v_buttons_cons (c : ValidatedComponent)
    (rest : List ValidatedComponent) :
    v_buttons (c :: rest) =
      own_buttons c ++ v_buttons c.children ++ v_buttons rest := by
  cases c <;> simp [v_buttons, own_buttons, ValidatedComponent.children]

/-- Helper: unfolding of `validate_components` when the counter budget is
exhausted by the head component. -/
theorem validate_components_cons_too_many {registry : SchemaRegistry}
    {output_map : List (String × String)} {depth cnt : Nat} {ids : List String}
    {id : String} {kind : ComponentKind} {title text : Option String}
    {fields : List RawFormField} {language code : Option String}
    {lines : List DiffLine} {label : Option String}
    {variant : Option ButtonStyle} {children rest : List RawComponent}
    (hgt : cnt + 1 > MAX_COMPONENTS) :
    validate_components registry output_map depth cnt ids
      (.mk id kind title text fields language code lines label variant
        children :: rest) =
      .error (.tooManyComponents MAX_COMPONENTS (cnt + 1)) := by
  simp only [validate_components]
  rw [if_pos hgt]

/-- Helper: unfolding of `validate_components` when the head component sits
past the depth budget. -/
theorem validate_components_cons_too_deep {registry : SchemaRegistry}
    {output_map : List (String × String)} {depth cnt : Nat} {ids : List String}
    {id : String} {kind : ComponentKind} {title text : Option String}
    {fields : List RawFormField} {language code : Option String}
    {lines : List DiffLine} {label : Option String}
    {variant : Option ButtonStyle} {children rest : List RawComponent}
    (hgt : ¬cnt + 1 > MAX_COMPONENTS) (hdepth : depth > MAX_DEPTH) :
    validate_components registry output_map depth cnt ids
      (.mk id kind title text fields language code lines label variant
        children :: rest) =
      .error (.nestingTooDeep MAX_DEPTH depth id) := by
  simp only [validate_components]
  rw [if_neg hgt, if_pos hdepth]

/-- Helper: unfolding of `validate_components` past all four fail-fast
checks of the head component. -/
theorem validate_components_cons_ok {registry : SchemaRegistry}
    {output_map : List (String × String)} {depth cnt : Nat} {ids : List String}
    {id : String} {kind : ComponentKind} {title text : Option String}
    {fields : List RawFormField} {language code : Option String}
    {lines : List DiffLine} {label : Option String}
    {variant : Option ButtonStyle} {children rest : List RawComponent}
    (hgt : ¬cnt + 1 > MAX_COMPONENTS) (hdepth : ¬depth > MAX_DEPTH)
    (hkind : ¬(kind.is_unknown || !(registry.supports_component kind)) = true)
    (hdup : ¬(kind.is_actionable = true ∧ id ∈ ids)) :
    validate_components registry output_map depth cnt ids
      (.mk id kind title text fields language code lines label variant
        children :: rest) =
      (match validate_components registry output_map (depth + 1) (cnt + 1)
          (if kind.is_actionable then ids ++ [id] else ids) children with
      | .error e => .error e
      | .ok (children_v, cnt2, ids2) =>
        match build_component registry output_map id kind title text fields
            language code lines label variant children_v with
        | .error e => .error e
        | .ok comp =>
          match validate_components registry output_map depth cnt2 ids2
              rest with
          | .error e => .error e
          | .ok (rest_v, cnt3, ids3) => .ok (comp :: rest_v, cnt3, ids3)) := by
  simp only [validate_components]
  rw [if_neg hgt, if_neg hdepth, if_neg hkind, if_neg hdup]

/-- Helper: a successfully built component keeps its children, contributes
its raw id as actionable id exactly for the actionable kinds, and
contributes a contract-backed button pair exactly for the button kind. -/
theorem build_component_spec {registry : SchemaRegistry}
    {output_map : List (String × String)} {id : String} {kind : ComponentKind}
    {title text : Option String} {fields : List RawFormField}
    {language code : Option String} {lines : List DiffLine}
    {label : Option String} {variant : Option ButtonStyle}
    {children_v : List ValidatedComponent} {comp : ValidatedComponent}
    (h : build_component registry output_map id kind title text fields language
      code lines label variant children_v = .ok comp) :
    comp.children = children_v ∧
    own_actionable comp = (if kind.is_actionable then [id] else []) ∧
    (∀ p ∈ own_buttons comp, assocFind output_map p.1 = some p.2) ∧
    (own_buttons comp).map Prod.fst = (if kind = .button then [id] else []) := by
  unfold build_component at h
  cases kind <;> dsimp only at h
  case markdown =>
    rcases text with _ | tx <;> dsimp only at h
    · simp at h
    · injection h with h2
      subst h2
      simp [ValidatedComponent.children, own_actionable, own_buttons,
        ComponentKind.is_actionable]
  case form =>
    rcases hf : validate_form_fields id fields registry with e | fs <;>
        rw [hf] at h <;> dsimp only at h
    · simp at h
    · injection h with h2
      subst h2
      simp [ValidatedComponent.children, own_actionable, own_buttons,
        ComponentKind.is_actionable]
  case code =>
    rcases code with _ | cd <;> dsimp only at h
    · simp at h
    · injection h with h2
      subst h2
      simp [ValidatedComponent.children, own_actionable, own_buttons,
        ComponentKind.is_actionable]
  case diff =>
    injection h with h2
    subst h2
    simp [ValidatedComponent.children, own_actionable, own_buttons,
      ComponentKind.is_actionable]
  case button =>
    rcases hm : assocFind output_map id with _ | ev <;> rw [hm] at h <;>
        dsimp only at h
    · simp at h
    · rcases label with _ | lb <;> dsimp only at h
      · simp at h
      · injection h with h2
        subst h2
        refine ⟨rfl, rfl, ?_, rfl⟩
        intro p hp
        simp only [own_buttons, List.mem_singleton] at hp
        subst hp
        exact hm
  case unknown k =>
    simp at h

/-- Helper: unfolding of `validate_components` when the head component kind
is unknown or unsupported. -/
theorem validate_components_cons_unknown {registry : SchemaRegistry}
    {output_map : List (String × String)} {depth cnt : Nat} {ids : List String}
    {id : String} {kind : ComponentKind} {title text : Option String}
    {fields : List RawFormField} {language code : Option String}
    {lines : List DiffLine} {label : Option String}
    {variant : Option ButtonStyle} {children rest : List RawComponent}
    (hgt : ¬cnt + 1 > MAX_COMPONENTS) (hdepth : ¬depth > MAX_DEPTH)
    (hkind : (kind.is_unknown || !(registry.supports_component kind)) = true) :
    validate_components registry output_map depth cnt ids
      (.mk id kind title text fields language code lines label variant
        children :: rest) =
      .error (.unknownComponent id kind.as_str) := by
  simp only [validate_components]
  rw [if_neg hgt, if_neg hdepth, if_pos hkind]

/-- Helper: unfolding of `validate_components` when the head component
repeats an already-seen actionable id. -/
theorem validate_components_cons_duplicate {registry : SchemaRegistry}
    {output_map : List (String × String)} {depth cnt : Nat} {ids : List String}
    {id : String} {kind : ComponentKind} {title text : Option String}
    {fields : List RawFormField} {language code : Option String}
    {lines : List DiffLine} {label : Option String}
    {variant : Option ButtonStyle} {children rest : List RawComponent}
    (hgt : ¬cnt + 1 > MAX_COMPONENTS) (hdepth : ¬depth > MAX_DEPTH)
    (hkind : ¬(kind.is_unknown || !(registry.supports_component kind)) = true)
    (hdup : kind.is_actionable = true ∧ id ∈ ids) :
    validate_components registry output_map depth cnt ids
      (.mk id kind title text fields language code lines label variant
        children :: rest) =
      .error (.duplicateActionableId id) := by
  simp only [validate_components]
  rw [if_neg hgt, if_neg hdepth, if_neg hkind, if_pos hdup]

/-- Helper: combined success invariants of `validate_components`: the shared
counter advances by the validated component count and respects the budget,
the validated tree respects the depth budget, the actionable-id set grows by
exactly the preorder actionable ids of the validated forest while staying
duplicate-free, every validated button pair is backed by the output map, and
the validated forest carries the raw forest's actionable and button ids. -/
theorem validate_components_ok_spec {registry : SchemaRegistry}
    {output_map : List (String × String)} :
    ∀ (depth component_counter : Nat) (actionable_ids : List String)
      (l : List RawComponent) (res : List ValidatedComponent) (cnt2 : Nat)
      (ids2 : List String),
      validate_components registry output_map depth component_counter
        actionable_ids l = .ok (res, cnt2, ids2) →
      cnt2 = component_counter + component_count res ∧
      (component_counter ≤ MAX_COMPONENTS → cnt2 ≤ MAX_COMPONENTS) ∧
      (1 ≤ depth → tree_depth res ≤ MAX_DEPTH + 1 - depth) ∧
      ids2 = actionable_ids ++ v_actionable_ids res ∧
      (actionable_ids.Nodup → ids2.Nodup) ∧
      (∀ p ∈ v_buttons res, assocFind output_map p.1 = some p.2) ∧
      v_actionable_ids res = raw_actionable_ids l ∧
      (v_buttons res).map Prod.fst = raw_button_ids l := by
  intro depth component_counter actionable_ids l
  induction depth, component_counter, actionable_ids, l using
    validate_components.induct registry output_map with
  | case1 depth cnt ids =>
    intro res cnt2 ids2 h
    simp only [validate_components, Except.ok.injEq, Prod.mk.injEq] at h
    obtain ⟨rfl, rfl, rfl⟩ := h
    simp [component_count, tree_depth, v_actionable_ids, v_buttons,
      raw_actionable_ids, raw_button_ids]
  | case2 depth cnt ids id kind title text fields language code lines label
      variant children rest cnt1 hgt =>
    intro res cnt2 ids2 h
    rw [validate_components_cons_too_many hgt] at h
    exact Except.noConfusion h
  | case3 depth cnt ids id kind title text fields language code lines label
      variant children rest cnt1 hgt hdepth =>
    intro res cnt2 ids2 h
    rw [validate_components_cons_too_deep hgt hdepth] at h
    exact Except.noConfusion h
  | case4 depth cnt ids id kind title text fields language code lines label
      variant children rest cnt1 hgt hdepth hkind =>
    intro res cnt2 ids2 h
    rw [validate_components_cons_unknown hgt hdepth hkind] at h
    exact Except.noConfusion h
  | case5 depth cnt ids id kind title text fields language code lines label
      variant children rest cnt1 hgt hdepth hkind hdup =>
    intro res cnt2 ids2 h
    rw [validate_components_cons_duplicate hgt hdepth hkind hdup] at h
    exact Except.noConfusion h
  | case6 depth cnt ids id kind title text fields language code lines label
      variant children rest cnt1 hgt hdepth hkind hdup ids1 e hch ih =>
    intro res cnt2 ids2 h
    rw [validate_components_cons_ok hgt hdepth hkind hdup] at h
    have hch2 : validate_components registry output_map (depth + 1) (cnt + 1)
        (if kind.is_actionable then ids ++ [id] else ids) children =
        .error e := hch
    rw [hch2] at h
    exact Except.noConfusion h
  | case7 depth cnt ids id kind title text fields language code lines label
      variant children rest cnt1 hgt hdepth hkind hdup ids1 children_v cnt3
      ids3 hch e hbuild ih =>
    intro res cnt2 ids2 h
    rw [validate_components_cons_ok hgt hdepth hkind hdup] at h
    have hch2 : validate_components registry output_map (depth + 1) (cnt + 1)
        (if kind.is_actionable then ids ++ [id] else ids) children =
        .ok (children_v, cnt3, ids3) := hch
    rw [hch2] at h
    dsimp only at h
    rw [hbuild] at h
    exact Except.noConfusion h
  | case8 depth cnt ids id kind title text fields language code lines label
      variant children rest cnt1 hgt hdepth hkind hdup ids1 children_v cnt3
      ids3 hch comp hbuild e hrest ih ih2 =>
    intro res cnt2 ids2 h
    rw [validate_components_cons_ok hgt hdepth hkind hdup] at h
    have hch2 : validate_components registry output_map (depth + 1) (cnt + 1)
        (if kind.is_actionable then ids ++ [id] else ids) children =
        .ok (children_v, cnt3, ids3) := hch
    rw [hch2] at h
    dsimp only at h
    rw [hbuild] at h
    dsimp only at h
    rw [hrest] at h
    exact Except.noConfusion h
  | case9 depth cnt ids id kind title text fields language code lines label
      variant children rest cnt1 hgt hdepth hkind hdup ids1 children_v cnt3
      ids3 hch comp hbuild rest_v cnt4 ids4 hrest ih ih2 =>
    intro res cnt2 ids2 h
    rw [validate_components_cons_ok hgt hdepth hkind hdup] at h
    have hch2 : validate_components registry output_map (depth + 1) (cnt + 1)
        (if kind.is_actionable then ids ++ [id] else ids) children =
        .ok (children_v, cnt3, ids3) := hch
    rw [hch2] at h
    dsimp only at h
    rw [hbuild] at h
    dsimp only at h
    rw [hrest] at h
    dsimp only at h
    simp only [Except.ok.injEq, Prod.mk.injEq] at h
    obtain ⟨rfl, rfl, rfl⟩ := h
    obtain ⟨ec, e2, e3, e4, e5, e6, e7, e8⟩ :=
      ih children_v cnt3 ids3 hch2
    obtain ⟨fc, f2, f3, f4, f5, f6, f7, f8⟩ :=
      ih2 rest_v cnt4 ids4 hrest
    obtain ⟨hcch, hact, hbtn, hbmap⟩ := build_component_spec hbuild
    have hi1 : ids1 = (if kind.is_actionable then ids ++ [id] else ids) := rfl
    rw [hi1] at e4 e5
    have hc1 : cnt1 = cnt + 1 := rfl
    rw [hc1] at ec e2
    have hd4 : depth ≤ MAX_DEPTH := by omega
    refine ⟨?_, ?_, ?_, ?_, ?_, ?_, ?_, ?_⟩
    · rw [component_count_cons, hcch, fc, ec]
      omega
    · intro hle
      exact f2 (e2 (by omega))
    · intro hd1
      rw [tree_depth_cons, hcch, Nat.max_le]
      have h3c := e3 (by omega)
      have h3r := f3 hd1
      omega
    · rw [v_actionable_ids_cons, hcch, hact, f4, e4]
      cases hab : kind.is_actionable <;>
        simp [hab, List.append_assoc]
    · intro hnd
      refine f5 (e5 ?_)
      cases hab : kind.is_actionable
      · simpa [hab] using hnd
      · have hnotmem : id ∉ ids := fun hm => hdup ⟨hab, hm⟩
        simp only [hab, if_true]
        rw [List.nodup_append]
        refine ⟨hnd, List.nodup_singleton id, fun a ha hb => ?_⟩
        rw [List.mem_singleton] at hb
        subst hb
        exact hnotmem ha
    · intro p hp
      rw [v_buttons_cons, hcch] at hp
      rcases List.mem_append.mp hp with hp1 | hp2
      · rcases List.mem_append.mp hp1 with hp3 | hp4
        · exact hbtn p hp3
        · exact e6 p hp4
      · exact f6 p hp2
    · rw [v_actionable_ids_cons, hcch, hact, e7, f7, raw_actionable_ids]
    · rw [v_buttons_cons, hcch, List.map_append, List.map_append, hbmap, e8,
        f8, raw_button_ids]

/-- Helper: form-field validation only ever fails with an unsupported field
type error. -/
theorem validate_form_fields_error_shape {form_id : String}
    {registry : SchemaRegistry} :
    ∀ {raw_fields : List RawFormField} {e : ValidationError},
      validate_form_fields form_id raw_fields registry = .error e →
      ∃ fi fl k, e = .unsupportedFieldType fi fl k := by
  intro raw_fields
  induction raw_fields with
  | nil =>
    intro e h
    simp [validate_form_fields] at h
  | cons field rest ih =>
    intro e h
    rw [validate_form_fields] at h
    split_ifs at h with hu
    · injection h with h2
      exact ⟨form_id, field.id, field.kind.as_str, h2.symm⟩
    · rcases hk : field.kind with _ | _ | _ | _ | k <;> rw [hk] at h <;>
        dsimp only at h
      all_goals
        first
          | (injection h with h2
             exact ⟨form_id, field.id, k, h2.symm⟩)
          | (split at h
             · rename_i e2 hrest
               injection h with h2
               subst h2
               exact ih hrest
             · exact Except.noConfusion h)

/-- Helper: component construction never fails with a budget error; those
come only from the counter and depth checks of `validate_components`. -/
theorem build_component_error_shape {registry : SchemaRegistry}
    {output_map : List (String × String)} {id : String} {kind : ComponentKind}
    {title text : Option String} {fields : List RawFormField}
    {language code : Option String} {lines : List DiffLine}
    {label : Option String} {variant : Option ButtonStyle}
    {children_v : List ValidatedComponent} {e : ValidationError}
    (h : build_component registry output_map id kind title text fields language
      code lines label variant children_v = .error e) :
    (∀ m a, e ≠ .tooManyComponents m a) ∧
    (∀ m a c, e ≠ .nestingTooDeep m a c) := by
  unfold build_component at h
  cases kind <;> dsimp only at h
  case markdown =>
    rcases text with _ | tx <;> dsimp only at h
    · injection h with h2
      subst h2
      simp
    · simp at h
  case form =>
    rcases hf : validate_form_fields id fields registry with e2 | fs <;>
        rw [hf] at h <;> dsimp only at h
    · injection h with h2
      subst h2
      rcases validate_form_fields_error_shape hf with ⟨fi, fl, k, rfl⟩
      simp
    · simp at h
  case code =>
    rcases code with _ | cd <;> dsimp only at h
    · injection h with h2
      subst h2
      simp
    · simp at h
  case diff =>
    simp at h
  case button =>
    rcases hm : assocFind output_map id with _ | ev <;> rw [hm] at h <;>
        dsimp only at h
    · injection h with h2
      subst h2
      simp
    · rcases label with _ | lb <;> dsimp only at h
      · injection h with h2
        subst h2
        simp
      · simp at h
  case unknown k =>
    injection h with h2
    subst h2
    simp

/-- Helper: within the running budgets, a component-count failure always
reports max 64 and actual 65 (the first over-budget component), and a
nesting failure always reports max 4 and actual 5 (the first over-budget
depth). -/
theorem validate_components_error_bounds {registry : SchemaRegistry}
    {output_map : List (String × String)} :
    ∀ (depth component_counter : Nat) (actionable_ids : List String)
      (l : List RawComponent) (e : ValidationError),
      component_counter ≤ MAX_COMPONENTS → depth ≤ MAX_DEPTH + 1 →
      validate_components registry output_map depth component_counter
        actionable_ids l = .error e →
      (∀ m a, e = .tooManyComponents m a →
        m = MAX_COMPONENTS ∧ a = MAX_COMPONENTS + 1) ∧
      (∀ m a c, e = .nestingTooDeep m a c →
        m = MAX_DEPTH ∧ a = MAX_DEPTH + 1) := by
  intro depth component_counter actionable_ids l
  induction depth, component_counter, actionable_ids, l using
    validate_components.induct registry output_map with
  | case1 depth cnt ids =>
    intro e hcnt hdep h
    simp [validate_components] at h
  | case2 depth cnt ids id kind title text fields language code lines label
      variant children rest cnt1 hgt =>
    intro e hcnt hdep h
    rw [validate_components_cons_too_many hgt] at h
    injection h with h2
    subst h2
    have hgt2 : cnt + 1 > MAX_COMPONENTS := hgt
    constructor
    · intro m a heq
      injection heq with hm ha
      omega
    · intro m a c heq
      exact absurd heq (by simp)
  | case3 depth cnt ids id kind title text fields language code lines label
      variant children rest cnt1 hgt hdepth =>
    intro e hcnt hdep h
    rw [validate_components_cons_too_deep hgt hdepth] at h
    injection h with h2
    subst h2
    constructor
    · intro m a heq
      exact absurd heq (by simp)
    · intro m a c heq
      injection heq with hm ha
      omega
  | case4 depth cnt ids id kind title text fields language code lines label
      variant children rest cnt1 hgt hdepth hkind =>
    intro e hcnt hdep h
    rw [validate_components_cons_unknown hgt hdepth hkind] at h
    injection h with h2
    subst h2
    constructor
    · intro m a heq
      exact absurd heq (by simp)
    · intro m a c heq
      exact absurd heq (by simp)
  | case5 depth cnt ids id kind title text fields language code lines label
      variant children rest cnt1 hgt hdepth hkind hdup =>
    intro e hcnt hdep h
    rw [validate_components_cons_duplicate hgt hdepth hkind hdup] at h
    injection h with h2
    subst h2
    constructor
    · intro m a heq
      exact absurd heq (by simp)
    · intro m a c heq
      exact absurd heq (by simp)
  | case6 depth cnt ids id kind title text fields language code lines label
      variant children rest cnt1 hgt hdepth hkind hdup ids1 e0 hch ih =>
    intro e hcnt hdep h
    rw [validate_components_cons_ok hgt hdepth hkind hdup] at h
    have hch2 : validate_components registry output_map (depth + 1) (cnt + 1)
        (if kind.is_actionable then ids ++ [id] else ids) children =
        .error e0 := hch
    rw [hch2] at h
    dsimp only at h
    injection h with h2
    subst h2
    have hgt2 : ¬cnt + 1 > MAX_COMPONENTS := hgt
    have hdep2 : ¬depth > MAX_DEPTH := hdepth
    exact ih e0 (by omega) (by omega) hch2
  | case7 depth cnt ids id kind title text fields language code lines label
      variant children rest cnt1 hgt hdepth hkind hdup ids1 children_v cnt3
      ids3 hch e0 hbuild ih =>
    intro e hcnt hdep h
    rw [validate_components_cons_ok hgt hdepth hkind hdup] at h
    have hch2 : validate_components registry output_map (depth + 1) (cnt + 1)
        (if kind.is_actionable then ids ++ [id] else ids) children =
        .ok (children_v, cnt3, ids3) := hch
    rw [hch2] at h
    dsimp only at h
    rw [hbuild] at h
    dsimp only at h
    injection h with h2
    subst h2
    obtain ⟨s1, s2⟩ := build_component_error_shape hbuild
    exact ⟨fun m a heq => absurd heq (s1 m a),
      fun m a c heq => absurd heq (s2 m a c)⟩
  | case8 depth cnt ids id kind title text fields language code lines label
      variant children rest cnt1 hgt hdepth hkind hdup ids1 children_v cnt3
      ids3 hch comp hbuild e0 hrest ih ih2 =>
    intro e hcnt hdep h
    rw [validate_components_cons_ok hgt hdepth hkind hdup] at h
    have hch2 : validate_components registry output_map (depth + 1) (cnt + 1)
        (if kind.is_actionable then ids ++ [id] else ids) children =
        .ok (children_v, cnt3, ids3) := hch
    rw [hch2] at h
    dsimp only at h
    rw [hbuild] at h
    dsimp only at h
    rw [hrest] at h
    dsimp only at h
    injection h with h2
    subst h2
    have hgt2 : ¬cnt + 1 > MAX_COMPONENTS := hgt
    have hcnt3 : cnt3 ≤ MAX_COMPONENTS :=
      (validate_components_ok_spec (depth + 1) (cnt + 1) _ children children_v
        cnt3 ids3 hch2).2.1 (by omega)
    exact ih2 e0 hcnt3 hdep hrest
  | case9 depth cnt ids id kind title text fields language code lines label
      variant children rest cnt1 hgt hdepth hkind hdup ids1 children_v cnt3
      ids3 hch comp hbuild rest_v cnt4 ids4 hrest ih ih2 =>
    intro e hcnt hdep h
    rw [validate_components_cons_ok hgt hdepth hkind hdup] at h
    have hch2 : validate_components registry output_map (depth + 1) (cnt + 1)
        (if kind.is_actionable then ids ++ [id] else ids) children =
        .ok (children_v, cnt3, ids3) := hch
    rw [hch2] at h
    dsimp only at h
    rw [hbuild] at h
    dsimp only at h
    rw [hrest] at h
    dsimp only at h
    exact Except.noConfusion h

/-- Helper: validating an empty forest returns the state unchanged. -/
theorem validate_components_nil {registry : SchemaRegistry}
    {output_map : List (String × String)} {depth cnt : Nat}
    {ids : List String} :
    validate_components registry output_map depth cnt ids [] =
      .ok ([], cnt, ids) := by
  simp [validate_components]

/-- Minimal well-formed markdown component used by concrete examples. -/
def markdown_component (i : String) : RawComponent :=
  .mk i .markdown none (some "x") [] none none [] none none []

/-- Helper: a flat run of markdown components overrunning the remaining
budget fails with max 64 and actual 65 exactly when the 65th component is
counted. -/
theorem replicate_markdown_overflow {om : List (String × String)} :
    ∀ (n cnt : Nat) (ids : List String), cnt ≤ MAX_COMPONENTS →
      cnt + n > MAX_COMPONENTS →
      validate_components componentRegistry om 1 cnt ids
        (List.replicate n (markdown_component "m")) =
        .error (.tooManyComponents MAX_COMPONENTS (MAX_COMPONENTS + 1)) := by
  intro n
  induction n with
  | zero =>
    intro cnt ids h1 h2
    omega
  | succ k ih =>
    intro cnt ids h1 h2
    rw [List.replicate_succ, markdown_component]
    by_cases hc : cnt + 1 > MAX_COMPONENTS
    · rw [validate_components_cons_too_many hc]
      have h64 : cnt = MAX_COMPONENTS := by
        unfold MAX_COMPONENTS at h1 hc ⊢
        omega
      rw [h64]
    · rw [validate_components_cons_ok hc (by decide) (by decide)
        (by simp [ComponentKind.is_actionable])]
      have hif : (if ComponentKind.markdown.is_actionable then ids ++ ["m"]
          else ids) = ids := rfl
      rw [hif, validate_components_nil]
      dsimp only
      have hbuild : build_component componentRegistry om "m" .markdown none
          (some "x") [] none none [] none none [] =
          .ok (.markdown "m" "x" []) := rfl
      rw [hbuild]
      dsimp only
      have hrest := ih (cnt + 1) ids (by omega) (by omega)
      rw [markdown_component] at hrest
      rw [hrest]

/-- Markdown chain nested five levels deep, the spec's depth-overflow
example. -/
def deep_chain : RawComponent :=
  .mk "l1" .markdown none (some "a") [] none none [] none none
    [.mk "l2" .markdown none (some "b") [] none none [] none none
      [.mk "l3" .markdown none (some "c") [] none none [] none none
        [.mk "l4" .markdown none (some "d") [] none none [] none none
          [.mk "l5" .markdown none (some "e") [] none none [] none none []]]]]

/-- Helper: one validation step over a childless-field markdown wrapper:
within the budgets it validates its subtree at the next depth and wraps the
result. -/
theorem markdown_step {om : List (String × String)} {depth cnt : Nat}
    (i t : String)
    (sub : List RawComponent) (hgt : ¬cnt + 1 > MAX_COMPONENTS)
    (hdepth : ¬depth > MAX_DEPTH) :
    validate_components componentRegistry om depth cnt []
      [.mk i .markdown none (some t) [] none none [] none none sub] =
      (match validate_components componentRegistry om (depth + 1) (cnt + 1) []
          sub with
      | .error e => .error e
      | .ok (ch, c2, i2) => .ok ([.markdown i t ch], c2, i2)) := by
  rw [validate_components_cons_ok hgt hdepth (by decide)
    (by simp [ComponentKind.is_actionable])]
  rw [show (if ComponentKind.markdown.is_actionable then
    ([] : List String) ++ [i] else []) = [] from rfl]
  rcases hv : validate_components componentRegistry om (depth + 1) (cnt + 1) []
      sub with e | ⟨ch, c2, i2⟩
  · rfl
  · dsimp only
    rw [show build_component componentRegistry om i ComponentKind.markdown none
      (some t) [] none none [] none none ch =
      .ok (ValidatedComponent.markdown i t ch) from rfl]
    dsimp only
    rw [validate_components_nil]

/-- Helper: schema validation propagates a component-validation error. -/
theorem validate_schema_eq_error {schema : UiSchema} {registry : SchemaRegistry}
    {e : ValidationError}
    (h : validate_components registry (schema_output_map schema.outputs) 1 0 []
      schema.components = .error e) :
    validate_schema schema registry = .error e := by
  unfold validate_schema
  rw [h]

/-- Helper: schema validation packages a component-validation success. -/
theorem validate_schema_eq_ok {schema : UiSchema} {registry : SchemaRegistry}
    {res : List ValidatedComponent} {cnt : Nat} {ids : List String}
    (h : validate_components registry (schema_output_map schema.outputs) 1 0 []
      schema.components = .ok (res, cnt, ids)) :
    validate_schema schema registry =
      .ok { schema_version := schema.schema_version, components := res } := by
  unfold validate_schema
  rw [h]

/-- Helper: the five-deep markdown chain fails validation with the
depth-budget error at the fifth level. -/
theorem deep_chain_fails :
    validate_schema
      { schema_version := 1, outputs := [], components := [deep_chain] }
      componentRegistry = .error (.nestingTooDeep 4 5 "l5") := by
  have e5 : validate_components componentRegistry (schema_output_map []) (1 + 1 + 1 + 1 + 1)
      (0 + 1 + 1 + 1 + 1) []
      [.mk "l5" .markdown none (some "e") [] none none [] none none []] =
      .error (.nestingTooDeep 4 5 "l5") :=
    validate_components_cons_too_deep (by decide) (by decide)
  have e4 : validate_components componentRegistry (schema_output_map []) (1 + 1 + 1 + 1)
      (0 + 1 + 1 + 1) []
      [.mk "l4" .markdown none (some "d") [] none none [] none none
        [.mk "l5" .markdown none (some "e") [] none none [] none none []]] =
      .error (.nestingTooDeep 4 5 "l5") := by
    rw [markdown_step "l4" "d" _ (by decide) (by decide), e5]
  have e3 : validate_components componentRegistry (schema_output_map []) (1 + 1 + 1)
      (0 + 1 + 1) []
      [.mk "l3" .markdown none (some "c") [] none none [] none none
        [.mk "l4" .markdown none (some "d") [] none none [] none none
          [.mk "l5" .markdown none (some "e") [] none none [] none none
            []]]] =
      .error (.nestingTooDeep 4 5 "l5") := by
    rw [markdown_step "l3" "c" _ (by decide) (by decide), e4]
  have e2 : validate_components componentRegistry (schema_output_map []) (1 + 1) (0 + 1) []
      [.mk "l2" .markdown none (some "b") [] none none [] none none
        [.mk "l3" .markdown none (some "c") [] none none [] none none
          [.mk "l4" .markdown none (some "d") [] none none [] none none
            [.mk "l5" .markdown none (some "e") [] none none [] none none
              []]]]] =
      .error (.nestingTooDeep 4 5 "l5") := by
    rw [markdown_step "l2" "b" _ (by decide) (by decide), e3]
  have e1 : validate_components componentRegistry (schema_output_map []) 1 0 [] [deep_chain] =
      .error (.nestingTooDeep 4 5 "l5") := by
    unfold deep_chain
    rw [markdown_step "l1" "a" _ (by decide) (by decide), e2]
  exact validate_schema_eq_error e1

/-- C3: validation reports a component-count overflow as TooManyComponents
with max 64 and actual 65, as soon as a 65th component is counted across
the entire tree (in particular on 65 top-level markdown components), and a
depth overflow as NestingTooDeep with max 4 and actual 5 (in particular on
a five-deep markdown chain); consequently a successfully validated schema
never holds more than 64 components nor nests deeper than 4. -/
theorem c3_component_and_depth_budgets :
    (∀ (registry : SchemaRegistry) (schema : UiSchema) (m a : Nat),
      validate_schema schema registry = .error (.tooManyComponents m a) →
      m = 64 ∧ a = 65) ∧
    (∀ (registry : SchemaRegistry) (schema : UiSchema) (m a : Nat)
      (c : String),
      validate_schema schema registry = .error (.nestingTooDeep m a c) →
      m = 4 ∧ a = 5) ∧
    (∀ (registry : SchemaRegistry) (schema : UiSchema) (v : ValidatedSchema),
      validate_schema schema registry = .ok v →
      component_count v.components ≤ 64 ∧ tree_depth v.components ≤ 4) ∧
    validate_schema ⟨1, [], List.replicate 65 (markdown_component "m")⟩
      componentRegistry = .error (.tooManyComponents 64 65) ∧
    validate_schema ⟨1, [], [deep_chain]⟩ componentRegistry =
      .error (.nestingTooDeep 4 5 "l5") := by
  have herr : ∀ (registry : SchemaRegistry) (schema : UiSchema)
      (e : ValidationError),
      validate_schema schema registry = .error e →
      validate_components registry (schema_output_map schema.outputs) 1 0 []
        schema.components = .error e := by
    intro registry schema e h
    unfold validate_schema at h
    rcases hv : validate_components registry (schema_output_map schema.outputs)
        1 0 [] schema.components with e2 | ⟨res, c, i⟩ <;> rw [hv] at h <;>
      dsimp only at h
    · injection h with h2
      rw [h2]
    · exact Except.noConfusion h
  refine ⟨?_, ?_, ?_, ?_, deep_chain_fails⟩
  · intro registry schema m a h
    exact (validate_components_error_bounds 1 0 [] schema.components _
      (by decide) (by decide) (herr registry schema _ h)).1 m a rfl
  · intro registry schema m a c h
    exact (validate_components_error_bounds 1 0 [] schema.components _
      (by decide) (by decide) (herr registry schema _ h)).2 m a c rfl
  · intro registry schema v h
    unfold validate_schema at h
    rcases hv : validate_components registry (schema_output_map schema.outputs)
        1 0 [] schema.components with e2 | ⟨res, c, i⟩ <;> rw [hv] at h <;>
      dsimp only at h
    · exact Except.noConfusion h
    · injection h with h2
      subst h2
      obtain ⟨p1, p2, p3, _⟩ := validate_components_ok_spec 1 0 [] _ res c i hv
      have h64 : MAX_COMPONENTS = 64 := rfl
      have h4 : MAX_DEPTH = 4 := rfl
      have hp2 := p2 (by omega)
      have hp3 := p3 (by omega)
      constructor
      · show component_count res ≤ 64
        omega
      · show tree_depth res ≤ 4
        omega
  · exact validate_schema_eq_error
      (replicate_markdown_overflow 65 0 [] (by decide) (by decide))

/-- Single-markdown schema used as a concrete witness input. -/
def single_markdown_schema : UiSchema :=
  { schema_version := 1, outputs := [],
    components := [markdown_component "m"] }

/-- Witness for the budget theorem: a concrete one-component schema
validates successfully and its validated tree sits within both budgets. -/
theorem c3_component_and_depth_budgets_witness :
    validate_schema single_markdown_schema componentRegistry =
      .ok ⟨1, [ValidatedComponent.markdown "m" "x" []]⟩ ∧
    component_count [ValidatedComponent.markdown "m" "x" []] ≤ 64 ∧
    tree_depth [ValidatedComponent.markdown "m" "x" []] ≤ 4 := by
  have hv : validate_components componentRegistry (schema_output_map []) 1 0 []
      [markdown_component "m"] =
      .ok ([ValidatedComponent.markdown "m" "x" []], 1, []) := by
    rw [markdown_component, validate_components_cons_ok (by decide) (by decide)
      (by decide) (by simp [ComponentKind.is_actionable])]
    rw [show (if ComponentKind.markdown.is_actionable then
      ([] : List String) ++ ["m"] else []) = [] from rfl]
    rw [validate_components_nil]
    dsimp only
    rw [show build_component componentRegistry (schema_output_map []) "m"
      ComponentKind.markdown none (some "x") [] none none [] none none [] =
      .ok (ValidatedComponent.markdown "m" "x" []) from rfl]
    dsimp only
    rw [validate_components_nil]
  have h : validate_schema single_markdown_schema componentRegistry =
      .ok ⟨1, [ValidatedComponent.markdown "m" "x" []]⟩ :=
    validate_schema_eq_ok hv
  exact ⟨h, c3_component_and_depth_budgets.2.2.1 componentRegistry
    single_markdown_schema _ h⟩

/-- Demo user-tier template whose primary term mismatches the demo intent. -/
def mismatchUserTemplate : CatalogTemplate :=
  { document :=
      { meta := { id := "user.q", title := "User Q", version := "1", tags := [] }
        match_rules := { primary := "q", operations := [], tags := [] }
        schema := JsonValue.null }
    source := { provider_id := "user-local", kind := .user, read_only := false } }

/-- Witness for the no-match-reason theorem at a concrete mismatching index. -/
theorem c5_no_match_reasons_witness :
    (resolve [mismatchUserTemplate] false demoIntent).selected = none ∧
    ((resolve [mismatchUserTemplate] false demoIntent).trace.no_match_reasons ≠
       [] ∧
     ((∀ t ∈ [mismatchUserTemplate],
         tier_index (precedence false) t.source.kind = none) →
       (resolve [mismatchUserTemplate] false
           demoIntent).trace.no_match_reasons =
         ["catalog index contains no templates"]) ∧
     (∀ t ∈ [mismatchUserTemplate], ∀ j,
       tier_index (precedence false) t.source.kind = some j →
       no_match_line (excluded_of demoIntent t) ∈
         (resolve [mismatchUserTemplate] false
             demoIntent).trace.no_match_reasons)) :=
  ⟨rfl, c5_no_match_reasons [mismatchUserTemplate] false demoIntent rfl⟩

/-- Raw button component with label "L", no variant and no children. -/
def button_component (id : String) : RawComponent :=
  .mk id .button none none [] none none [] (some "L") none []

/-- Helper: a successful association lookup means the key occurs in the map. -/
theorem assocFind_mem_keys {α : Type} {m : List (String × α)} {k : String}
    {v : α} (h : assocFind m k = some v) : k ∈ m.map Prod.fst := by
  unfold assocFind at h
  rcases hf : m.find? (fun p => p.1 == k) with _ | p
  · rw [hf] at h
    exact Option.noConfusion h
  · have hm := List.mem_of_find?_eq_some hf
    have hp := List.find?_some hf
    simp only [beq_iff_eq] at hp
    rw [← hp]
    exact List.mem_map_of_mem Prod.fst hm

/-- Helper: a key of an insertion-extended map is the inserted key or an
existing key. -/
theorem mem_keys_assocInsert {α : Type} {m : List (String × α)} {k k2 : String}
    {v : α} (h : k2 ∈ (assocInsert m k v).map Prod.fst) :
    k2 = k ∨ k2 ∈ m.map Prod.fst := by
  induction m with
  | nil =>
    simp only [assocInsert, List.map_cons, List.map_nil,
      List.mem_singleton] at h
    exact Or.inl h
  | cons p rest ih =>
    obtain ⟨a, b⟩ := p
    rw [assocInsert] at h
    split_ifs at h with hak
    · simp only [List.map_cons, List.mem_cons] at h
      rcases h with h | h
      · exact Or.inl (h.trans hak)
      · exact Or.inr (by simp only [List.map_cons, List.mem_cons]; exact Or.inr h)
    · simp only [List.map_cons, List.mem_cons] at h
      rcases h with h | h
      · exact Or.inr (by simp only [List.map_cons, List.mem_cons]; exact Or.inl h)
      · rcases ih h with h2 | h2
        · exact Or.inl h2
        · exact Or.inr (by simp only [List.map_cons, List.mem_cons]; exact Or.inr h2)

/-- Helper: every key of the output-contract map names the component id of
some declared output contract. -/
theorem mem_keys_schema_output_map {outputs : List OutputContract} {k : String}
    (h : k ∈ (schema_output_map outputs).map Prod.fst) :
    ∃ o ∈ outputs, o.component_id = k := by
  have aux : ∀ (l : List OutputContract) (acc : List (String × String)),
      k ∈ (l.foldl (fun m o => assocInsert m o.component_id o.event_id)
        acc).map Prod.fst →
      k ∈ acc.map Prod.fst ∨ ∃ o ∈ l, o.component_id = k := by
    intro l
    induction l with
    | nil =>
      intro acc h2
      simp only [List.foldl_nil] at h2
      exact Or.inl h2
    | cons o rest ih =>
      intro acc h2
      rw [List.foldl_cons] at h2
      rcases ih (assocInsert acc o.component_id o.event_id) h2 with
        hacc | ⟨o2, ho2, hk⟩
      · rcases mem_keys_assocInsert hacc with heq | hmem
        · exact Or.inr ⟨o, List.mem_cons_self o rest, heq.symm⟩
        · exact Or.inl hmem
      · exact Or.inr ⟨o2, List.mem_cons_of_mem o ho2, hk⟩
  rcases aux outputs [] h with habs | hex
  · simp at habs
  · exact hex

/-- Counterexample for C6: a schema whose outputs table lists the same
component id twice still validates successfully (the later entry wins in
the derived map), so a validated button's id can have two matching entries
in the output-contract table rather than exactly one. -/
theorem c6_counterexample_duplicate_output_entries :
    validate_schema ⟨1, [⟨"b", "e1"⟩, ⟨"b", "e2"⟩], [button_component "b"]⟩
      componentRegistry =
      .ok ⟨1, [ValidatedComponent.button "b" "L" "e2" .secondary []]⟩ ∧
    (([⟨"b", "e1"⟩, ⟨"b", "e2"⟩] : List OutputContract).filter
      (fun o => o.component_id == "b")).length = 2 := by
  refine ⟨?_, rfl⟩
  have hv : validate_components componentRegistry
      (schema_output_map [⟨"b", "e1"⟩, ⟨"b", "e2"⟩]) 1 0 []
      [button_component "b"] =
      .ok ([ValidatedComponent.button "b" "L" "e2" .secondary []], 1, ["b"]) := by
    rw [button_component, validate_components_cons_ok (by decide) (by decide)
      (by decide) (by simp)]
    rw [show (if ComponentKind.button.is_actionable then
      ([] : List String) ++ ["b"] else []) = ["b"] from rfl]
    rw [validate_components_nil]
    dsimp only
    rw [show build_component componentRegistry
      (schema_output_map [⟨"b", "e1"⟩, ⟨"b", "e2"⟩]) "b" ComponentKind.button
      none none [] none none [] (some "L") none [] =
      .ok (ValidatedComponent.button "b" "L" "e2" .secondary []) from rfl]
    dsimp only
    rw [validate_components_nil]
  exact validate_schema_eq_ok hv

/-- C6 (amended): a successfully validated schema has pairwise distinct
actionable ids (in the validated tree and equally in the raw tree) and
every validated button's id resolves in the derived output map and names
the component id of at least one declared output contract; conversely a
raw tree with duplicated actionable ids never validates; concretely, two
sibling buttons sharing id "a" fail with DuplicateActionableId and a
button without any matching output contract fails with
MissingButtonOutputContract. -/
theorem c6_actionable_uniqueness_and_button_contracts :
    (∀ (registry : SchemaRegistry) (schema : UiSchema) (v : ValidatedSchema),
      validate_schema schema registry = .ok v →
      (v_actionable_ids v.components).Nodup ∧
      (raw_actionable_ids schema.components).Nodup ∧
      (∀ p ∈ v_buttons v.components,
        assocFind (schema_output_map schema.outputs) p.1 = some p.2 ∧
        ∃ o ∈ schema.outputs, o.component_id = p.1)) ∧
    (∀ (registry : SchemaRegistry) (schema : UiSchema),
      ¬(raw_actionable_ids schema.components).Nodup →
      ∀ v, validate_schema schema registry ≠ .ok v) ∧
    validate_schema
      ⟨1, [⟨"a", "e"⟩], [button_component "a", button_component "a"]⟩
      componentRegistry = .error (.duplicateActionableId "a") ∧
    validate_schema ⟨1, [], [button_component "b"]⟩ componentRegistry =
      .error (.missingButtonOutputContract "b") := by
  have hmain : ∀ (registry : SchemaRegistry) (schema : UiSchema)
      (v : ValidatedSchema),
      validate_schema schema registry = .ok v →
      (v_actionable_ids v.components).Nodup ∧
      (raw_actionable_ids schema.components).Nodup ∧
      (∀ p ∈ v_buttons v.components,
        assocFind (schema_output_map schema.outputs) p.1 = some p.2 ∧
        ∃ o ∈ schema.outputs, o.component_id = p.1) := by
    intro registry schema v h
    unfold validate_schema at h
    rcases hv : validate_components registry (schema_output_map schema.outputs)
        1 0 [] schema.components with e2 | ⟨res, c, i⟩ <;> rw [hv] at h <;>
      dsimp only at h
    · exact Except.noConfusion h
    · injection h with h2
      subst h2
      obtain ⟨_, _, _, p4, p5, p6, p7, _⟩ :=
        validate_components_ok_spec 1 0 [] _ res c i hv
      have hi : i = v_actionable_ids res := by simpa using p4
      have hnd : (v_actionable_ids res).Nodup := hi ▸ p5 List.nodup_nil
      refine ⟨hnd, p7 ▸ hnd, ?_⟩
      intro p hp
      refine ⟨p6 p hp, mem_keys_schema_output_map (assocFind_mem_keys (p6 p hp))⟩
  have hdup : validate_components componentRegistry
      (schema_output_map [⟨"a", "e"⟩]) 1 0 []
      [button_component "a", button_component "a"] =
      .error (.duplicateActionableId "a") := by
    simp only [button_component]
    rw [validate_components_cons_ok (by decide) (by decide) (by decide)
      (by simp)]
    rw [show (if ComponentKind.button.is_actionable then
      ([] : List String) ++ ["a"] else []) = ["a"] from rfl]
    rw [validate_components_nil]
    dsimp only
    rw [show build_component componentRegistry (schema_output_map [⟨"a", "e"⟩])
      "a" ComponentKind.button none none [] none none [] (some "L") none [] =
      .ok (ValidatedComponent.button "a" "L" "e" .secondary []) from rfl]
    dsimp only
    rw [validate_components_cons_duplicate (by decide) (by decide) (by decide)
      (by decide)]
  have hmiss : validate_components componentRegistry (schema_output_map []) 1 0
      [] [button_component "b"] =
      .error (.missingButtonOutputContract "b") := by
    rw [button_component, validate_components_cons_ok (by decide) (by decide)
      (by decide) (by simp)]
    rw [show (if ComponentKind.button.is_actionable then
      ([] : List String) ++ ["b"] else []) = ["b"] from rfl]
    rw [validate_components_nil]
    dsimp only
    rw [show build_component componentRegistry (schema_output_map []) "b"
      ComponentKind.button none none [] none none [] (some "L") none [] =
      .error (.missingButtonOutputContract "b") from rfl]
  refine ⟨hmain, ?_, ?_, ?_⟩
  · intro registry schema hnd v h
    exact hnd (hmain registry schema v h).2.1
  · exact validate_schema_eq_error hdup
  · exact validate_schema_eq_error hmiss

/-- Witness for the uniqueness-and-contracts theorem at a concrete schema
with a single contracted button. -/
theorem c6_actionable_uniqueness_and_button_contracts_witness :
    validate_schema ⟨1, [⟨"a", "e"⟩], [button_component "a"]⟩
      componentRegistry =
      .ok ⟨1, [ValidatedComponent.button "a" "L" "e" .secondary []]⟩ ∧
    (v_actionable_ids
      [ValidatedComponent.button "a" "L" "e" .secondary []]).Nodup ∧
    (raw_actionable_ids [button_component "a"]).Nodup ∧
    (∀ p ∈ v_buttons [ValidatedComponent.button "a" "L" "e" .secondary []],
      assocFind (schema_output_map [⟨"a", "e"⟩]) p.1 = some p.2 ∧
      ∃ o ∈ ([⟨"a", "e"⟩] : List OutputContract), o.component_id = p.1) := by
  have hv : validate_components componentRegistry
      (schema_output_map [⟨"a", "e"⟩]) 1 0 [] [button_component "a"] =
      .ok ([ValidatedComponent.button "a" "L" "e" .secondary []], 1, ["a"]) := by
    rw [button_component, validate_components_cons_ok (by decide) (by decide)
      (by decide) (by simp)]
    rw [show (if ComponentKind.button.is_actionable then
      ([] : List String) ++ ["a"] else []) = ["a"] from rfl]
    rw [validate_components_nil]
    dsimp only
    rw [show build_component componentRegistry (schema_output_map [⟨"a", "e"⟩])
      "a" ComponentKind.button none none [] none none [] (some "L") none [] =
      .ok (ValidatedComponent.button "a" "L" "e" .secondary []) from rfl]
    dsimp only
    rw [validate_components_nil]
  have h : validate_schema ⟨1, [⟨"a", "e"⟩], [button_component "a"]⟩
      componentRegistry =
      .ok ⟨1, [ValidatedComponent.button "a" "L" "e" .secondary []]⟩ :=
    validate_schema_eq_ok hv
  exact ⟨h, c6_actionable_uniqueness_and_button_contracts.1 componentRegistry
    ⟨1, [⟨"a", "e"⟩], [button_component "a"]⟩
    ⟨1, [ValidatedComponent.button "a" "L" "e" .secondary []]⟩ h⟩

/-- C10: a raw button with no variant field, a label and a matching output
contract builds successfully and its validated variant silently defaults to
Secondary; concretely a variant-less button schema validates to a Secondary
button. -/
theorem c10_button_variant_defaults_secondary :
    (∀ (registry : SchemaRegistry) (output_map : List (String × String))
      (id : String) (title text : Option String) (fields : List RawFormField)
      (language code : Option String) (lines : List DiffLine) (lb ev : String)
      (children_v : List ValidatedComponent),
      assocFind output_map id = some ev →
      build_component registry output_map id .button title text fields language
        code lines (some lb) none children_v =
        .ok (.button id lb ev .secondary children_v)) ∧
    validate_schema ⟨1, [⟨"v", "ev"⟩], [button_component "v"]⟩
      componentRegistry =
      .ok ⟨1, [ValidatedComponent.button "v" "L" "ev" .secondary []]⟩ := by
  constructor
  · intro registry output_map id title text fields language code lines lb ev
      children_v hfind
    simp only [build_component]
    rw [hfind]
    rfl
  · have hv : validate_components componentRegistry
        (schema_output_map [⟨"v", "ev"⟩]) 1 0 [] [button_component "v"] =
        .ok ([ValidatedComponent.button "v" "L" "ev" .secondary []], 1,
          ["v"]) := by
      rw [button_component, validate_components_cons_ok (by decide) (by decide)
        (by decide) (by simp)]
      rw [show (if ComponentKind.button.is_actionable then
        ([] : List String) ++ ["v"] else []) = ["v"] from rfl]
      rw [validate_components_nil]
      dsimp only
      rw [show build_component componentRegistry
        (schema_output_map [⟨"v", "ev"⟩]) "v" ComponentKind.button none none []
        none none [] (some "L") none [] =
        .ok (ValidatedComponent.button "v" "L" "ev" .secondary []) from rfl]
      dsimp only
      rw [validate_components_nil]
    exact validate_schema_eq_ok hv

/-- Witness for the variant-default theorem at a concrete one-entry map. -/
theorem c10_button_variant_defaults_secondary_witness :
    assocFind [("v", "ev")] "v" = some "ev" ∧
    build_component componentRegistry [("v", "ev")] "v" .button none none []
      none none [] (some "L") none [] =
      .ok (.button "v" "L" "ev" .secondary []) :=
  ⟨rfl, c10_button_variant_defaults_secondary.1 componentRegistry [("v", "ev")]
    "v" none none [] none none [] "L" "ev" [] rfl⟩

/-- Model of `RuntimeError` (`src/ui/runtime.rs`). -/
inductive RuntimeError where
  | deserialize (message : String)
  | validation (message : String)
deriving DecidableEq

/-- Model of the schema-and-state fields of `UiRuntime`; the registry field
is the fixed `ComponentRegistry::new()` modelled by `componentRegistry`,
and the event log, which schema loading never touches, is not carried. -/
structure UiRuntime where
  validated_schema : Option ValidatedSchema
  runtime_error : Option RuntimeError
  form_state : List (String × UiFieldValue)

/-- Model of `UiRuntime::new`. -/
def UiRuntime.new : UiRuntime :=
  { validated_schema := none, runtime_error := none, form_state := [] }

/-- Model of `UiRuntime::seed_form_state`: walk the validated tree in
order; at a form, insert every field's default under
`field_key(form.id, field.id)`; then descend into the component's
children before moving to the next sibling. -/
def seed_form_state : List ValidatedComponent →
    List (String × UiFieldValue) → List (String × UiFieldValue)
  | [], st => st
  | .markdown _ _ ch :: rest, st => seed_form_state rest (seed_form_state ch st)
  | .form i _ fields ch :: rest, st =>
    seed_form_state rest (seed_form_state ch
      (fields.foldl
        (fun s f => assocInsert s (field_key i f.id) f.default_value) st))
  | .code _ _ _ ch :: rest, st => seed_form_state rest (seed_form_state ch st)
  | .diff _ _ ch :: rest, st => seed_form_state rest (seed_form_state ch st)
  | .button _ _ _ _ ch :: rest, st =>
    seed_form_state rest (seed_form_state ch st)

/-- Model of `UiRuntime::load_schema`: validate against the runtime's
registry; on failure store the rendered validation error, on success seed
the form state from the validated tree and store the schema. -/
def UiRuntime.load_schema (rt : UiRuntime) (schema : UiSchema) :
    UiRuntime × Except RuntimeError Unit :=
  match validate_schema schema componentRegistry with
  | .error err =>
    ({ rt with runtime_error := some (.validation err.render) },
      .error (.validation err.render))
  | .ok validated =>
    ({ rt with
        validated_schema := some validated,
        form_state := seed_form_state validated.components rt.form_state },
      .ok ())

/-- Model of `UiRuntime::load_schema_value`; `parsed` stands for the
outcome of `serde_json::from_value` on the raw value. The prior schema,
error and form state are cleared before anything else. -/
def UiRuntime.load_schema_value (rt : UiRuntime)
    (parsed : Except String UiSchema) : UiRuntime × Except RuntimeError Unit :=
  let cleared : UiRuntime :=
    { rt with
        validated_schema := none, runtime_error := none, form_state := [] }
  match parsed with
  | .error err =>
    ({ cleared with runtime_error := some (.deserialize err) },
      .error (.deserialize err))
  | .ok schema => cleared.load_schema schema

/-- Model of `UiRuntime::form_state_snapshot`. -/
def UiRuntime.form_state_snapshot (rt : UiRuntime) :
    List (String × UiFieldValue) :=
  rt.form_state

/-- Model of `UiRuntime::restore_form_state`. -/
def UiRuntime.restore_form_state (rt : UiRuntime)
    (state : List (String × UiFieldValue)) : UiRuntime :=
  { rt with form_state := state }

/-- C9: for a runtime holding a loaded schema, restoring the form-state
snapshot reproduces the form state exactly — indeed the whole runtime is
unchanged, and no defaults are re-derived. -/
theorem c9_snapshot_restore_round_trip (rt : UiRuntime)
    (h : rt.validated_schema.isSome = true) :
    rt.restore_form_state rt.form_state_snapshot = rt ∧
    (rt.restore_form_state rt.form_state_snapshot).form_state =
      rt.form_state := by
  exact ⟨rfl, rfl⟩

/-- Witness for the snapshot-restore round trip at a concrete loaded
runtime with one seeded entry. -/
theorem c9_snapshot_restore_round_trip_witness :
    (⟨some ⟨1, []⟩, none,
      [("f:x", UiFieldValue.text "a")]⟩ : UiRuntime).validated_schema.isSome =
      true ∧
    (⟨some ⟨1, []⟩, none,
        [("f:x", UiFieldValue.text "a")]⟩ : UiRuntime).restore_form_state
      (UiRuntime.form_state_snapshot
        ⟨some ⟨1, []⟩, none, [("f:x", UiFieldValue.text "a")]⟩) =
      ⟨some ⟨1, []⟩, none, [("f:x", UiFieldValue.text "a")]⟩ ∧
    ((⟨some ⟨1, []⟩, none,
        [("f:x", UiFieldValue.text "a")]⟩ : UiRuntime).restore_form_state
      (UiRuntime.form_state_snapshot
        ⟨some ⟨1, []⟩, none,
          [("f:x", UiFieldValue.text "a")]⟩)).form_state =
      [("f:x", UiFieldValue.text "a")] :=
  ⟨rfl, c9_snapshot_restore_round_trip
    ⟨some ⟨1, []⟩, none, [("f:x", UiFieldValue.text "a")]⟩ rfl⟩

/-- All (form id, field) pairs of a validated forest, in seeding order. -/
def form_field_pairs :
    List ValidatedComponent → List (String × ValidatedFormField)
  | [] => []
  | .markdown _ _ ch :: rest => form_field_pairs ch ++ form_field_pairs rest
  | .form i _ fields ch :: rest =>
    fields.map (fun f => (i, f)) ++
      (form_field_pairs ch ++ form_field_pairs rest)
  | .code _ _ _ ch :: rest => form_field_pairs ch ++ form_field_pairs rest
  | .diff _ _ ch :: rest => form_field_pairs ch ++ form_field_pairs rest
  | .button _ _ _ _ ch :: rest => form_field_pairs ch ++ form_field_pairs rest

/-- One seeding step: insert a field's default under its form-scoped key. -/
def seed_insert (s : List (String × UiFieldValue))
    (p : String × ValidatedFormField) : List (String × UiFieldValue) :=
  assocInsert s (field_key p.1 p.2.id) p.2.default_value

/-- Key of a (form id, field) pair in the form state. -/
def pair_key (p : String × ValidatedFormField) : String :=
  field_key p.1 p.2.id

/-- Helper: seeding a forest folds `seed_insert` over its field pairs. -/
theorem seed_form_state_eq_pairs :
    ∀ (l : List ValidatedComponent) (st : List (String × UiFieldValue)),
      seed_form_state l st = (form_field_pairs l).foldl seed_insert st := by
  intro l st
  induction l, st using seed_form_state.induct with
  | case1 st => simp [seed_form_state, form_field_pairs]
  | case2 _ _ ch rest st ih1 ih2 =>
    simp only [seed_form_state, form_field_pairs, List.foldl_append]
    rw [ih2, ih1]
  | case3 i _ fields ch rest st ih1 ih2 =>
    simp only [seed_form_state, form_field_pairs, List.foldl_append]
    rw [ih2, ih1, List.foldl_map]
    simp [seed_insert]
  | case4 _ _ _ ch rest st ih1 ih2 =>
    simp only [seed_form_state, form_field_pairs, List.foldl_append]
    rw [ih2, ih1]
  | case5 _ _ ch rest st ih1 ih2 =>
    simp only [seed_form_state, form_field_pairs, List.foldl_append]
    rw [ih2, ih1]
  | case6 _ _ _ _ ch rest st ih1 ih2 =>
    simp only [seed_form_state, form_field_pairs, List.foldl_append]
    rw [ih2, ih1]

/-- Helper: lookup in a cons cell. -/
theorem assocFind_cons {α : Type} (a k : String) (b : α)
    (m : List (String × α)) :
    assocFind ((a, b) :: m) k = if a = k then some b else assocFind m k := by
  by_cases h : a = k <;> simp [assocFind, List.find?_cons, h]

/-- Helper: lookup after an insertion. -/
theorem assocFind_assocInsert {α : Type} (m : List (String × α))
    (k k2 : String) (v : α) :
    assocFind (assocInsert m k v) k2 =
      if k = k2 then some v else assocFind m k2 := by
  induction m with
  | nil =>
    rw [show assocInsert ([] : List (String × α)) k v = [(k, v)] from rfl,
      assocFind_cons]
  | cons p rest ih =>
    obtain ⟨a, b⟩ := p
    rw [assocInsert]
    by_cases hak : a = k
    · rw [if_pos hak, assocFind_cons, assocFind_cons, hak]
      by_cases h : k = k2
      · simp only [if_pos h]
      · simp only [if_neg h]
    · rw [if_neg hak, assocFind_cons, assocFind_cons, ih]
      by_cases h : a = k2
      · have hk : ¬k = k2 := fun h2 => hak (h.trans h2.symm)
        simp only [if_pos h, if_neg hk]
      · simp only [if_neg h]

/-- Helper: lookup after folding the seeding step over a pair list is a
last-wins lookup over the pairs, falling back to the initial state. -/
theorem assocFind_foldl_seed_insert :
    ∀ (ps : List (String × ValidatedFormField))
      (st : List (String × UiFieldValue)) (k : String),
      assocFind (ps.foldl seed_insert st) k =
        match ps.reverse.find? (fun p => pair_key p == k) with
        | some p => some p.2.default_value
        | none => assocFind st k := by
  intro ps
  induction ps with
  | nil =>
    intro st k
    simp [List.find?]
  | cons p rest ih =>
    intro st k
    rw [List.foldl_cons, ih, List.reverse_cons, List.find?_append]
    have hfind : assocFind (seed_insert st p) k =
        if pair_key p = k then some p.2.default_value else assocFind st k := by
      rw [show seed_insert st p =
        assocInsert st (pair_key p) p.2.default_value from rfl,
        assocFind_assocInsert]
    rcases hf : rest.reverse.find? (fun q => pair_key q == k) with _ | q
    · by_cases h : pair_key p = k
      · rw [List.find?_cons_of_pos _ (by simpa using h)]
        simp only [Option.none_or]
        rw [hfind, if_pos h]
      · rw [List.find?_cons_of_neg _ (by simpa using h), List.find?_nil]
        simp only [Option.none_or]
        rw [hfind, if_neg h]
    · rfl

/-- Helper: with pairwise distinct keys, searching a pair list for a
member's key finds that member. -/
theorem find_pair_key_of_nodup :
    ∀ (ps : List (String × ValidatedFormField))
      (p : String × ValidatedFormField),
      (ps.map pair_key).Nodup → p ∈ ps →
      ps.find? (fun q => pair_key q == pair_key p) = some p := by
  intro ps
  induction ps with
  | nil =>
    intro p _ hp
    exact absurd hp (List.not_mem_nil p)
  | cons a rest ih =>
    intro p hnd hp
    rw [List.map_cons, List.nodup_cons] at hnd
    rcases List.mem_cons.mp hp with rfl | hmem
    · exact List.find?_cons_of_pos _ (by simp)
    · have hne : pair_key a ≠ pair_key p := by
        intro he
        exact hnd.1 (he ▸ List.mem_map_of_mem pair_key hmem)
      rw [List.find?_cons_of_neg _ (by simpa using hne)]
      exact ih p hnd.2 hmem

/-- Helper: with pairwise distinct keys, seeding from the empty state
leaves each field's own default under that field's key. -/
theorem seed_lookup_default {l : List ValidatedComponent}
    (hnd : ((form_field_pairs l).map pair_key).Nodup)
    {p : String × ValidatedFormField} (hp : p ∈ form_field_pairs l) :
    assocFind (seed_form_state l []) (pair_key p) =
      some p.2.default_value := by
  rw [seed_form_state_eq_pairs, assocFind_foldl_seed_insert]
  have hrev : (form_field_pairs l).reverse.find?
      (fun q => pair_key q == pair_key p) = some p := by
    apply find_pair_key_of_nodup
    · rw [List.map_reverse]
      exact List.nodup_reverse.mpr hnd
    · exact List.mem_reverse.mpr hp
  rw [hrev]

/-- Helper: the seeded state holds no key outside the field pairs. -/
theorem seed_lookup_mem_keys {l : List ValidatedComponent} {k : String}
    (h : (assocFind (seed_form_state l []) k).isSome = true) :
    k ∈ (form_field_pairs l).map pair_key := by
  rw [seed_form_state_eq_pairs, assocFind_foldl_seed_insert] at h
  rcases hf : (form_field_pairs l).reverse.find?
      (fun q => pair_key q == k) with _ | q
  · rw [hf] at h
    simp [assocFind, List.find?] at h
  · have hq := List.find?_some hf
    simp only [beq_iff_eq] at hq
    have hqm := List.mem_of_find?_eq_some hf
    rw [← hq]
    exact List.mem_map_of_mem pair_key (List.mem_reverse.mp hqm)

/-- Helper: loading a deserialize failure clears everything and stores the
deserialize error. -/
theorem load_schema_value_err {rt : UiRuntime} {e : String} :
    rt.load_schema_value (.error e) =
      (⟨none, some (.deserialize e), []⟩, .error (.deserialize e)) := rfl

/-- Helper: loading a parsed schema that fails validation clears everything
and stores the rendered validation error. -/
theorem load_schema_value_validation {rt : UiRuntime} {schema : UiSchema}
    {err : ValidationError}
    (h : validate_schema schema componentRegistry = .error err) :
    rt.load_schema_value (.ok schema) =
      (⟨none, some (.validation err.render), []⟩,
        .error (.validation err.render)) := by
  simp only [UiRuntime.load_schema_value, UiRuntime.load_schema, h]

/-- Helper: loading a parsed schema that validates stores the schema and a
form state seeded from scratch. -/
theorem load_schema_value_ok {rt : UiRuntime} {schema : UiSchema}
    {v : ValidatedSchema}
    (h : validate_schema schema componentRegistry = .ok v) :
    rt.load_schema_value (.ok schema) =
      (⟨some v, none, seed_form_state v.components []⟩, .ok ()) := by
  simp only [UiRuntime.load_schema_value, UiRuntime.load_schema, h]

/-- Seeding equation: empty forest. -/
theorem seed_form_state_nil (st : List (String × UiFieldValue)) :
    seed_form_state [] st = st := by
  simp only [seed_form_state]

/-- Seeding equation: leading form component. -/
theorem seed_form_state_form (i : String) (t : Option String)
    (fields : List ValidatedFormField) (ch rest : List ValidatedComponent)
    (st : List (String × UiFieldValue)) :
    seed_form_state (.form i t fields ch :: rest) st =
      seed_form_state rest (seed_form_state ch
        (fields.foldl
          (fun s f => assocInsert s (field_key i f.id) f.default_value) st)) := by
  simp only [seed_form_state]

/-- Field-pairs equation: empty forest. -/
theorem form_field_pairs_nil : form_field_pairs [] = [] := by
  simp only [form_field_pairs]

/-- Field-pairs equation: leading form component. -/
theorem form_field_pairs_form (i : String) (t : Option String)
    (fields : List ValidatedFormField) (ch rest : List ValidatedComponent) :
    form_field_pairs (.form i t fields ch :: rest) =
      fields.map (fun f => (i, f)) ++
        (form_field_pairs ch ++ form_field_pairs rest) := by
  simp only [form_field_pairs]

/-- Raw form declaring two fields with the same id "x": a text field
defaulting to "a", then a checkbox field defaulting to false. -/
def dup_field_form : RawComponent :=
  .mk "f" .form none none
    [⟨"x", "X", .text, [], JsonValue.str "a"⟩,
      ⟨"x", "B", .checkbox, [], JsonValue.null⟩] none none [] none none []

/-- Raw form declaring a single text field "y" defaulting to "d". -/
def one_field_form : RawComponent :=
  .mk "g" .form none none [⟨"y", "Y", .text, [], JsonValue.str "d"⟩]
    none none [] none none []

/-- Counterexample for C7: a form declaring two fields with the same id
validates, but seeding collides on the shared key "f:x", so the loaded
form state holds one entry whose value is the second field's default and
not the first field's type-correct default. -/
theorem c7_counterexample_duplicate_field_defaults :
    UiRuntime.new.load_schema_value (.ok ⟨1, [], [dup_field_form]⟩) =
      (⟨some ⟨1, [ValidatedComponent.form "f" none
          [.text "x" "X" "a", .checkbox "x" "B" false] []]⟩, none,
        [("f:x", UiFieldValue.checkbox false)]⟩, .ok ()) ∧
    ("f", ValidatedFormField.text "x" "X" "a") ∈
      form_field_pairs [ValidatedComponent.form "f" none
        [.text "x" "X" "a", .checkbox "x" "B" false] []] ∧
    assocFind [("f:x", UiFieldValue.checkbox false)]
        (pair_key ("f", ValidatedFormField.text "x" "X" "a")) ≠
      some (ValidatedFormField.text "x" "X" "a").default_value := by
  refine ⟨?_, ?_, by decide⟩
  · have hv : validate_components componentRegistry (schema_output_map []) 1 0
        [] [dup_field_form] =
        .ok ([ValidatedComponent.form "f" none
          [.text "x" "X" "a", .checkbox "x" "B" false] []], 1, ["f"]) := by
      rw [dup_field_form, validate_components_cons_ok (by decide) (by decide)
        (by decide) (by simp)]
      rw [show (if ComponentKind.form.is_actionable then
        ([] : List String) ++ ["f"] else []) = ["f"] from rfl]
      rw [validate_components_nil]
      dsimp only
      rw [show build_component componentRegistry (schema_output_map []) "f"
        ComponentKind.form none none
        [⟨"x", "X", .text, [], JsonValue.str "a"⟩,
          ⟨"x", "B", .checkbox, [], JsonValue.null⟩] none none [] none none [] =
        .ok (ValidatedComponent.form "f" none
          [.text "x" "X" "a", .checkbox "x" "B" false] []) from rfl]
      dsimp only
      rw [validate_components_nil]
    have hval : validate_schema ⟨1, [], [dup_field_form]⟩ componentRegistry =
        .ok ⟨1, [ValidatedComponent.form "f" none
          [.text "x" "X" "a", .checkbox "x" "B" false] []]⟩ :=
      validate_schema_eq_ok hv
    rw [load_schema_value_ok hval]
    dsimp only
    rw [seed_form_state_form, seed_form_state_nil, seed_form_state_nil]
    rfl
  · rw [form_field_pairs_form, form_field_pairs_nil]
    simp

/-- C7 (amended): loading a raw schema value first clears the prior
schema, error and form state, so the outcome never depends on the prior
runtime and the runtime is never simultaneously in error and loaded
states; a deserialize or validation failure leaves a cleared runtime with
only the error set; a successful load stores the schema and seeds the
form state from scratch, and — provided the form-scoped field keys are
pairwise distinct, which duplicated field ids inside one form break —
every field of every form anywhere in the tree is mapped under
"formId:fieldId" to its own type-correct default, with no other keys. -/
theorem c7_load_clears_and_seeds_defaults :
    (∀ (rt rt2 : UiRuntime) (parsed : Except String UiSchema),
      rt.load_schema_value parsed = rt2.load_schema_value parsed) ∧
    (∀ (rt : UiRuntime) (parsed : Except String UiSchema),
      ¬(((rt.load_schema_value parsed).1.runtime_error.isSome = true) ∧
        ((rt.load_schema_value parsed).1.validated_schema.isSome = true))) ∧
    (∀ (rt : UiRuntime) (e : String),
      rt.load_schema_value (.error e) =
        (⟨none, some (.deserialize e), []⟩, .error (.deserialize e))) ∧
    (∀ (rt : UiRuntime) (schema : UiSchema) (err : ValidationError),
      validate_schema schema componentRegistry = .error err →
      rt.load_schema_value (.ok schema) =
        (⟨none, some (.validation err.render), []⟩,
          .error (.validation err.render))) ∧
    (∀ (rt : UiRuntime) (schema : UiSchema) (v : ValidatedSchema),
      validate_schema schema componentRegistry = .ok v →
      rt.load_schema_value (.ok schema) =
        (⟨some v, none, seed_form_state v.components []⟩, .ok ()) ∧
      (((form_field_pairs v.components).map pair_key).Nodup →
        ∀ p ∈ form_field_pairs v.components,
          assocFind (seed_form_state v.components []) (pair_key p) =
            some p.2.default_value) ∧
      (∀ k, (assocFind (seed_form_state v.components []) k).isSome = true →
        k ∈ (form_field_pairs v.components).map pair_key)) := by
  refine ⟨?_, ?_, fun rt e => load_schema_value_err,
    fun rt schema err h => load_schema_value_validation h,
    fun rt schema v h =>
      ⟨load_schema_value_ok h, fun hnd p hp => seed_lookup_default hnd hp,
        fun k hk => seed_lookup_mem_keys hk⟩⟩
  · intro rt rt2 parsed
    cases parsed <;> rfl
  · intro rt parsed
    rcases parsed with e | schema
    · rw [load_schema_value_err]
      rintro ⟨-, h2⟩
      simp at h2
    · rcases hval : validate_schema schema componentRegistry with err | v
      · rw [load_schema_value_validation hval]
        rintro ⟨-, h2⟩
        simp at h2
      · rw [load_schema_value_ok hval]
        rintro ⟨h1, -⟩
        simp at h1

/-- Witness for the loading theorem at a concrete one-field form schema. -/
theorem c7_load_clears_and_seeds_defaults_witness :
    validate_schema ⟨1, [], [one_field_form]⟩ componentRegistry =
      .ok ⟨1, [ValidatedComponent.form "g" none
        [.text "y" "Y" "d"] []]⟩ ∧
    (UiRuntime.new.load_schema_value (.ok ⟨1, [], [one_field_form]⟩) =
      (⟨some ⟨1, [ValidatedComponent.form "g" none [.text "y" "Y" "d"] []]⟩,
        none,
        seed_form_state
          (⟨1, [ValidatedComponent.form "g" none [.text "y" "Y" "d"] []]⟩ :
            ValidatedSchema).components []⟩, .ok ()) ∧
    (((form_field_pairs
        (⟨1, [ValidatedComponent.form "g" none [.text "y" "Y" "d"] []]⟩ :
          ValidatedSchema).components).map pair_key).Nodup →
      ∀ p ∈ form_field_pairs
        (⟨1, [ValidatedComponent.form "g" none [.text "y" "Y" "d"] []]⟩ :
          ValidatedSchema).components,
        assocFind (seed_form_state
          (⟨1, [ValidatedComponent.form "g" none [.text "y" "Y" "d"] []]⟩ :
            ValidatedSchema).components []) (pair_key p) =
          some p.2.default_value) ∧
    (∀ k, (assocFind (seed_form_state
        (⟨1, [ValidatedComponent.form "g" none [.text "y" "Y" "d"] []]⟩ :
          ValidatedSchema).components []) k).isSome = true →
      k ∈ (form_field_pairs
        (⟨1, [ValidatedComponent.form "g" none [.text "y" "Y" "d"] []]⟩ :
          ValidatedSchema).components).map pair_key)) := by
  have hv : validate_components componentRegistry (schema_output_map []) 1 0
      [] [one_field_form] =
      .ok ([ValidatedComponent.form "g" none [.text "y" "Y" "d"] []], 1,
        ["g"]) := by
    rw [one_field_form, validate_components_cons_ok (by decide) (by decide)
      (by decide) (by simp)]
    rw [show (if ComponentKind.form.is_actionable then
      ([] : List String) ++ ["g"] else []) = ["g"] from rfl]
    rw [validate_components_nil]
    dsimp only
    rw [show build_component componentRegistry (schema_output_map []) "g"
      ComponentKind.form none none [⟨"y", "Y", .text, [], JsonValue.str "d"⟩]
      none none [] none none [] =
      .ok (ValidatedComponent.form "g" none [.text "y" "Y" "d"] []) from rfl]
    dsimp only
    rw [validate_components_nil]
  have hval : validate_schema ⟨1, [], [one_field_form]⟩ componentRegistry =
      .ok ⟨1, [ValidatedComponent.form "g" none [.text "y" "Y" "d"] []]⟩ :=
    validate_schema_eq_ok hv
  exact ⟨hval, c7_load_clears_and_seeds_defaults.2.2.2.2 UiRuntime.new
    ⟨1, [], [one_field_form]⟩
    ⟨1, [ValidatedComponent.form "g" none [.text "y" "Y" "d"] []]⟩ hval⟩

/-- Model of `CanvasBlockState` (`src/ui/workspace.rs`) restricted to the
fields block-target resolution reads; title, provider, schema, intent,
minimized flag and form state never enter the resolution. -/
structure CanvasBlockState where
  block_id : String
  template_id : String
deriving DecidableEq

/-- Model of `CanvasBlock` (`src/app.rs`) restricted likewise; the
embedded runtime and synced event count never enter the resolution. -/
structure CanvasBlock where
  state : CanvasBlockState
  last_touched_at : Nat
deriving DecidableEq

/-- Model of `BlockTargetResolution`. -/
inductive BlockTargetResolution where
  | existing (index : Nat)
  | notFound
  | ambiguous (block_ids : List String)
deriving DecidableEq

/-- The ascending string order of `Vec::sort`, via `compare`. -/
def cmp_le (a b : String) : Prop := compare a b ≠ Ordering.gt

instance : DecidableRel cmp_le := fun a b => by
  unfold cmp_le
  infer_instance

/-- Helper: the sort order agrees with the linear order on strings. -/
theorem cmp_le_iff_le (a b : String) : cmp_le a b ↔ a ≤ b := by
  rw [cmp_le, ne_eq, compare_gt_iff_gt]
  exact not_lt

instance : IsTotal String cmp_le :=
  ⟨fun a b => by
    rw [cmp_le_iff_le, cmp_le_iff_le]
    exact le_total a b⟩

instance : IsTrans String cmp_le :=
  ⟨fun a b c hab hbc => (cmp_le_iff_le a c).mpr
    (le_trans ((cmp_le_iff_le a b).mp hab) ((cmp_le_iff_le b c).mp hbc))⟩

/-- The enumerated blocks whose template id matches the request. -/
def template_matches (blocks : List CanvasBlock) (template_id : String) :
    List (Nat × CanvasBlock) :=
  blocks.enum.filter (fun p => p.2.state.template_id == template_id)

/-- The latest touch timestamp of the matches, 0 when there are none. -/
def newest_touch (ms : List (Nat × CanvasBlock)) : Nat :=
  ((ms.map (fun p => p.2.last_touched_at)).max?).getD 0

/-- The matches tied at the latest touch timestamp. -/
def tied_matches (blocks : List CanvasBlock) (template_id : String) :
    List (Nat × CanvasBlock) :=
  (template_matches blocks template_id).filter
    (fun p => p.2.last_touched_at ==
      newest_touch (template_matches blocks template_id))

/-- Model of `resolve_block_target_for_template`. -/
def resolve_block_target_for_template (blocks : List CanvasBlock)
    (active_block_id : Option String) (template_id : String) :
    BlockTargetResolution :=
  match active_block_id.bind (fun aid => blocks.findIdx? (fun block =>
      block.state.block_id == aid &&
        block.state.template_id == template_id)) with
  | some index => .existing index
  | none =>
    if (template_matches blocks template_id).isEmpty then .notFound
    else
      match tied_matches blocks template_id with
      | [p] => .existing p.1
      | tied => .ambiguous (List.insertionSort cmp_le
          (tied.map (fun p => p.2.state.block_id)))

/-- Model of `UpdateTarget` in `apply_canvas_block_from_schema`. -/
inductive UpdateTarget where
  | existing (index : Nat)
  | openNew
deriving DecidableEq

/-- The per-resolution step of `apply_canvas_block_from_schema` for a
request without an explicit block id: the ambiguous case fails the
operation with the joined candidate ids in the failure detail. -/
def canvas_update_target :
    BlockTargetResolution → Except String UpdateTarget
  | .existing index => .ok (.existing index)
  | .notFound => .ok .openNew
  | .ambiguous block_ids =>
    .error ("ambiguous target; specify block_id (candidates: " ++
      String.intercalate ", " block_ids ++ ")")

/-- Helper: resolution without an active-block hit takes the recency
branch. -/
theorem resolve_block_no_hit {blocks : List CanvasBlock}
    {active : Option String} {tid : String}
    (hmiss : active.bind (fun aid => blocks.findIdx? (fun block =>
      block.state.block_id == aid && block.state.template_id == tid)) =
      none) :
    resolve_block_target_for_template blocks active tid =
      (if (template_matches blocks tid).isEmpty then .notFound
      else
        match tied_matches blocks tid with
        | [p] => .existing p.1
        | tied => .ambiguous (List.insertionSort cmp_le
            (tied.map (fun p => p.2.state.block_id)))) := by
  unfold resolve_block_target_for_template
  rw [hmiss]

/-- Helper: no matches exactly when no block carries the template id. -/
theorem template_matches_eq_nil_iff {blocks : List CanvasBlock}
    {tid : String} :
    template_matches blocks tid = [] ↔
      ∀ b ∈ blocks, b.state.template_id ≠ tid := by
  unfold template_matches
  rw [List.filter_eq_nil_iff]
  constructor
  · intro h b hb
    obtain ⟨i, hi⟩ := List.mem_iff_get?.mp hb
    have := h (i, b) (List.mk_mem_enum_iff_get?.mpr hi)
    simpa using this
  · intro h p hp
    have := h p.2 (List.snd_mem_of_mem_enum hp)
    simpa using this

/-- Helper: every match is touched no later than the newest touch. -/
theorem le_newest_touch {ms : List (Nat × CanvasBlock)}
    {q : Nat × CanvasBlock} (hq : q ∈ ms) :
    q.2.last_touched_at ≤ newest_touch ms := by
  unfold newest_touch
  rcases hmax : (ms.map (fun p => p.2.last_touched_at)).max? with _ | m
  · rw [List.max?_eq_none_iff, List.map_eq_nil_iff] at hmax
    rw [hmax] at hq
    exact absurd hq (List.not_mem_nil q)
  · have hmax2 := hmax
    rw [List.max?_eq_some_iff'] at hmax2
    rw [hmax]
    have := hmax2.2 _ (List.mem_map_of_mem _ hq)
    simpa using this

/-- Helper: a tied match carries exactly the newest touch timestamp. -/
theorem tied_matches_touch {blocks : List CanvasBlock} {tid : String}
    {q : Nat × CanvasBlock} (hq : q ∈ tied_matches blocks tid) :
    q ∈ template_matches blocks tid ∧
    q.2.last_touched_at = newest_touch (template_matches blocks tid) := by
  unfold tied_matches at hq
  have hmem := List.mem_of_mem_filter hq
  have hpred := List.of_mem_filter hq
  simp only [beq_iff_eq] at hpred
  exact ⟨hmem, hpred⟩

/-- Helper: resolution with an active-block hit returns that index. -/
theorem resolve_block_hit {blocks : List CanvasBlock} {aid tid : String}
    {i : Nat}
    (hfi : blocks.findIdx? (fun block =>
      block.state.block_id == aid && block.state.template_id == tid) =
      some i) :
    resolve_block_target_for_template blocks (some aid) tid = .existing i := by
  unfold resolve_block_target_for_template
  rw [show (some aid).bind (fun a => blocks.findIdx? (fun block =>
    block.state.block_id == a && block.state.template_id == tid)) =
    blocks.findIdx? (fun block =>
    block.state.block_id == aid && block.state.template_id == tid) from rfl]
  rw [hfi]

/-- C4: with no explicit block id, a matching active block wins outright;
otherwise, among blocks carrying the requested template id the resolution
is NotFound when there are none, the unique most-recently-touched block's
index when the tie group is a singleton, and Ambiguous over the tied
blocks' ids sorted ascending otherwise, which the caller turns into a
failure naming the candidates; concretely, with A touched at 1, B touched
at 999, both on template "T" and A active, A is selected. -/
theorem c4_block_target_resolution :
    (∀ (blocks : List CanvasBlock) (aid tid : String),
      (∃ b ∈ blocks, b.state.block_id = aid ∧ b.state.template_id = tid) →
      ∃ i b, resolve_block_target_for_template blocks (some aid) tid =
          .existing i ∧
        blocks.get? i = some b ∧ b.state.block_id = aid ∧
        b.state.template_id = tid) ∧
    (∀ (blocks : List CanvasBlock) (active : Option String) (tid : String),
      active.bind (fun aid => blocks.findIdx? (fun block =>
        block.state.block_id == aid && block.state.template_id == tid)) =
        none →
      (resolve_block_target_for_template blocks active tid = .notFound ↔
        ∀ b ∈ blocks, b.state.template_id ≠ tid) ∧
      (∀ p, tied_matches blocks tid = [p] →
        resolve_block_target_for_template blocks active tid =
          .existing p.1 ∧
        blocks.get? p.1 = some p.2 ∧ p.2.state.template_id = tid ∧
        ∀ q ∈ template_matches blocks tid,
          q.2.last_touched_at ≤ p.2.last_touched_at) ∧
      (∀ a b rest, tied_matches blocks tid = a :: b :: rest →
        resolve_block_target_for_template blocks active tid =
          .ambiguous (List.insertionSort cmp_le
            ((a :: b :: rest).map (fun p => p.2.state.block_id))) ∧
        List.Sorted cmp_le (List.insertionSort cmp_le
          ((a :: b :: rest).map (fun p => p.2.state.block_id))) ∧
        (List.insertionSort cmp_le
          ((a :: b :: rest).map (fun p => p.2.state.block_id))).Perm
          ((a :: b :: rest).map (fun p => p.2.state.block_id)))) ∧
    (∀ ids, canvas_update_target (.ambiguous ids) =
      .error ("ambiguous target; specify block_id (candidates: " ++
        String.intercalate ", " ids ++ ")")) ∧
    (∀ i, canvas_update_target (.existing i) = .ok (.existing i)) ∧
    canvas_update_target .notFound = .ok .openNew ∧
    resolve_block_target_for_template
      [⟨⟨"A", "T"⟩, 1⟩, ⟨⟨"B", "T"⟩, 999⟩] (some "A") "T" = .existing 0 := by
  refine ⟨?_, ?_, fun ids => rfl, fun i => rfl, rfl, rfl⟩
  · rintro blocks aid tid ⟨b0, hb0, hid, htid⟩
    have hne : blocks.findIdx? (fun block =>
        block.state.block_id == aid && block.state.template_id == tid) ≠
        none := by
      intro hnone
      rw [List.findIdx?_eq_none_iff] at hnone
      have := hnone b0 hb0
      rw [hid, htid] at this
      simp at this
    rcases hfi : blocks.findIdx? (fun block =>
        block.state.block_id == aid && block.state.template_id == tid) with
        _ | i
    · exact absurd hfi hne
    · obtain ⟨hlt, hpi, -⟩ := List.findIdx?_eq_some_iff_getElem.mp hfi
      simp only [Bool.and_eq_true, beq_iff_eq] at hpi
      refine ⟨i, blocks[i], resolve_block_hit hfi, ?_, hpi.1, hpi.2⟩
      rw [List.get?_eq_getElem?, List.getElem?_eq_getElem hlt]
  · intro blocks active tid hmiss
    refine ⟨?_, ?_, ?_⟩
    · rw [resolve_block_no_hit hmiss]
      constructor
      · intro hres
        rcases hemp : (template_matches blocks tid).isEmpty with _ | _
        · rw [if_neg (by simp [hemp])] at hres
          split at hres
          · exact absurd hres (by simp)
          · exact absurd hres (by simp)
        · exact template_matches_eq_nil_iff.mp (List.isEmpty_iff.mp hemp)
      · intro hall
        have hnil := template_matches_eq_nil_iff.mpr hall
        rw [hnil]
        rfl
    · intro p htied
      have hp : p ∈ tied_matches blocks tid := by
        rw [htied]
        exact List.mem_singleton.mpr rfl
      obtain ⟨hpm, hptouch⟩ := tied_matches_touch hp
      have hnn : template_matches blocks tid ≠ [] := List.ne_nil_of_mem hpm
      have hemp : ¬((template_matches blocks tid).isEmpty = true) := by
        simpa [List.isEmpty_iff] using hnn
      refine ⟨?_, ?_, ?_, ?_⟩
      · rw [resolve_block_no_hit hmiss, if_neg hemp, htied]
      · have henum : p ∈ blocks.enum := List.mem_of_mem_filter hpm
        obtain ⟨i2, b2⟩ := p
        exact List.mk_mem_enum_iff_get?.mp henum
      · have := List.of_mem_filter hpm
        simpa using this
      · intro q hq
        rw [hptouch]
        exact le_newest_touch hq
    · intro a b rest htied
      have ha : a ∈ tied_matches blocks tid := by
        rw [htied]
        exact List.mem_cons_self a _
      have hnn : template_matches blocks tid ≠ [] :=
        List.ne_nil_of_mem (tied_matches_touch ha).1
      have hemp : ¬((template_matches blocks tid).isEmpty = true) := by
        simpa [List.isEmpty_iff] using hnn
      exact ⟨by rw [resolve_block_no_hit hmiss, if_neg hemp, htied],
        List.sorted_insertionSort cmp_le _, List.perm_insertionSort cmp_le _⟩

/-- Witness for the block-targeting theorem at the two-block example. -/
theorem c4_block_target_resolution_witness :
    (∃ b ∈ ([⟨⟨"A", "T"⟩, 1⟩, ⟨⟨"B", "T"⟩, 999⟩] : List CanvasBlock),
      b.state.block_id = "A" ∧ b.state.template_id = "T") ∧
    ∃ i b, resolve_block_target_for_template
        [⟨⟨"A", "T"⟩, 1⟩, ⟨⟨"B", "T"⟩, 999⟩] (some "A") "T" = .existing i ∧
      ([⟨⟨"A", "T"⟩, 1⟩, ⟨⟨"B", "T"⟩, 999⟩] : List CanvasBlock).get? i =
        some b ∧
      b.state.block_id = "A" ∧ b.state.template_id = "T" :=
  ⟨⟨⟨⟨"A", "T"⟩, 1⟩, List.mem_cons_self _ _, rfl, rfl⟩,
    c4_block_target_resolution.1 [⟨⟨"A", "T"⟩, 1⟩, ⟨⟨"B", "T"⟩, 999⟩] "A" "T"
      ⟨⟨⟨"A", "T"⟩, 1⟩, List.mem_cons_self _ _, rfl, rfl⟩⟩

/-- Model of `normalize_terms`: trim, drop empties, and collect through a
`BTreeSet`, i.e. deduplicate and iterate in ascending order. -/
def normalize_terms (terms : List String) : List String :=
  List.insertionSort cmp_le
    (((terms.map strTrim).filter (fun t => ¬t = "")).dedup)

/-- Model of `normalize_document`. -/
def normalize_document (document : TemplateDocument) : TemplateDocument :=
  { document with
      meta := { id := strTrim document.meta.id,
                title := strTrim document.meta.title,
                version := strTrim document.meta.version,
                tags := normalize_terms document.meta.tags },
      match_rules := { primary := strTrim document.match_rules.primary,
                       operations :=
                         normalize_terms document.match_rules.operations,
                       tags := normalize_terms document.match_rules.tags } }

/-- Model of `parse_and_validate_template`; `parse_document` and
`parse_ui_schema` stand for the two serde_json deserializations. -/
def parse_and_validate_template
    (parse_document : String → Except String TemplateDocument)
    (parse_ui_schema : JsonValue → Except String UiSchema)
    (raw_template : String) (source : CatalogSource) (template_ref : String) :
    Except String CatalogTemplate :=
  match parse_document raw_template with
  | .error err =>
    .error ("template parse failed (" ++ template_ref ++ "): " ++ err)
  | .ok document0 =>
    let document := normalize_document document0
    if strTrim document.meta.id = "" then .error "meta.id is required"
    else if strTrim document.meta.title = "" then
      .error "meta.title is required"
    else if strTrim document.meta.version = "" then
      .error "meta.version is required"
    else if strTrim document.match_rules.primary = "" then
      .error "match.primary is required"
    else
      match parse_ui_schema document.schema with
      | .error err => .error ("schema deserialize error: " ++ err)
      | .ok ui_schema =>
        match validate_schema ui_schema componentRegistry with
        | .error err => .error ("schema validation error: " ++ err.render)
        | .ok _ => .ok { document := document, source := source }

/-- A directory entry handed to the user-catalog loader: file name and
file content (reads are modelled as already performed). -/
structure FsFile where
  name : String
  content : String
deriving DecidableEq

/-- A file name carrying the "json" path extension: the characters after
the last dot read "json", and that dot is preceded by a nonempty stem (a
bare hidden name like ".json" has no extension in Rust). -/
def is_json_file (name : String) : Bool :=
  let cs := name.data
  let ext := cs.reverse.takeWhile (fun c => c != '.')
  decide (ext.reverse = ['j', 's', 'o', 'n']) &&
    decide (ext.length + 1 < cs.length)

/-- The filename order of `paths.sort()`. -/
def file_le (f g : FsFile) : Prop := cmp_le f.name g.name

instance : DecidableRel file_le := fun f g => by
  unfold file_le
  infer_instance

instance : IsTotal FsFile file_le :=
  ⟨fun f g => IsTotal.total (r := cmp_le) f.name g.name⟩

instance : IsTrans FsFile file_le :=
  ⟨fun f g h hfg hgh => Trans.trans (r := cmp_le) (s := cmp_le) hfg hgh⟩

/-- Model of `CatalogLoadDiagnostic`. -/
structure CatalogLoadDiagnostic where
  provider_id : String
  template_ref : String
  reason : String
deriving DecidableEq

/-- Model of `CatalogLoadOutput`. -/
structure CatalogLoadOutput where
  templates : List CatalogTemplate
  diagnostics : List CatalogLoadDiagnostic

/-- The json-filtered, name-sorted processing order of `load_templates`. -/
def sorted_json_files (files : List FsFile) : List FsFile :=
  List.insertionSort file_le (files.filter (fun f => is_json_file f.name))

/-- One per-file step of `load_templates`. -/
def load_step (parse_document : String → Except String TemplateDocument)
    (parse_ui_schema : JsonValue → Except String UiSchema)
    (source : CatalogSource) (out : CatalogLoadOutput) (f : FsFile) :
    CatalogLoadOutput :=
  match parse_and_validate_template parse_document parse_ui_schema f.content
      source f.name with
  | .ok template => { out with templates := out.templates ++ [template] }
  | .error reason =>
    { out with diagnostics := out.diagnostics ++
        [⟨source.provider_id, f.name, reason⟩] }

/-- Model of `UserCatalogProvider::load_templates` over an existing
directory whose reads succeed: json files only, in filename order, one
independent parse-and-validate per file. -/
def load_templates (parse_document : String → Except String TemplateDocument)
    (parse_ui_schema : JsonValue → Except String UiSchema)
    (source : CatalogSource) (files : List FsFile) : CatalogLoadOutput :=
  (sorted_json_files files).foldl
    (load_step parse_document parse_ui_schema source) ⟨[], []⟩

/-- Helper: folding the load step accumulates, in processing order, the
successfully validated templates and one diagnostic per failing file. -/
theorem load_foldl_spec
    (parse_document : String → Except String TemplateDocument)
    (parse_ui_schema : JsonValue → Except String UiSchema)
    (source : CatalogSource) :
    ∀ (l : List FsFile) (out0 : CatalogLoadOutput),
      (l.foldl (load_step parse_document parse_ui_schema source)
          out0).templates =
        out0.templates ++ l.filterMap (fun f =>
          (parse_and_validate_template parse_document parse_ui_schema
            f.content source f.name).toOption) ∧
      (l.foldl (load_step parse_document parse_ui_schema source)
          out0).diagnostics =
        out0.diagnostics ++ l.filterMap (fun f =>
          match parse_and_validate_template parse_document parse_ui_schema
              f.content source f.name with
          | .ok _ => none
          | .error reason => some ⟨source.provider_id, f.name, reason⟩) := by
  intro l
  induction l with
  | nil =>
    intro out0
    simp
  | cons f rest ih =>
    intro out0
    rw [List.foldl_cons]
    obtain ⟨iht, ihd⟩ :=
      ih (load_step parse_document parse_ui_schema source out0 f)
    rcases hp : parse_and_validate_template parse_document parse_ui_schema
        f.content source f.name with reason | template
    · constructor
      · rw [iht]
        simp [load_step, hp, Except.toOption]
      · rw [ihd]
        simp [load_step, hp]
    · constructor
      · rw [iht]
        simp [load_step, hp, Except.toOption]
      · rw [ihd]
        simp [load_step, hp]

/-- Helper: every processed file lands in exactly one of the two output
lists, so the lengths add up to the number of processed files. -/
theorem load_counts
    (parse_document : String → Except String TemplateDocument)
    (parse_ui_schema : JsonValue → Except String UiSchema)
    (source : CatalogSource) :
    ∀ (l : List FsFile),
      (l.filterMap (fun f =>
        (parse_and_validate_template parse_document parse_ui_schema
          f.content source f.name).toOption)).length +
      (l.filterMap (fun f =>
        match parse_and_validate_template parse_document parse_ui_schema
            f.content source f.name with
        | .ok _ => none
        | .error reason =>
          some (⟨source.provider_id, f.name, reason⟩ :
            CatalogLoadDiagnostic))).length = l.length := by
  intro l
  induction l with
  | nil => rfl
  | cons f rest ih =>
    rcases hp : parse_and_validate_template parse_document parse_ui_schema
        f.content source f.name with reason | template <;>
      simp [List.filterMap_cons, hp, Except.toOption] at ih ⊢ <;> omega

/-- C8: user-catalog loading processes the json files of the directory in
filename-sorted order and each file independently: the templates list
collects exactly the per-file successes in order, the diagnostics list
collects exactly one entry per failing file, every processed file lands
in exactly one of the two lists (loading is never all-or-nothing), and a
file's success or failure only ever moves that one file between the two
lists. -/
theorem c8_per_document_loading :
    ∀ (parse_document : String → Except String TemplateDocument)
      (parse_ui_schema : JsonValue → Except String UiSchema)
      (source : CatalogSource) (files : List FsFile),
      (load_templates parse_document parse_ui_schema source
          files).templates =
        (sorted_json_files files).filterMap (fun f =>
          (parse_and_validate_template parse_document parse_ui_schema
            f.content source f.name).toOption) ∧
      (load_templates parse_document parse_ui_schema source
          files).diagnostics =
        (sorted_json_files files).filterMap (fun f =>
          match parse_and_validate_template parse_document parse_ui_schema
              f.content source f.name with
          | .ok _ => none
          | .error reason => some ⟨source.provider_id, f.name, reason⟩) ∧
      (load_templates parse_document parse_ui_schema source
          files).templates.length +
        (load_templates parse_document parse_ui_schema source
          files).diagnostics.length = (sorted_json_files files).length ∧
      List.Sorted file_le (sorted_json_files files) ∧
      (sorted_json_files files).Perm
        (files.filter (fun f => is_json_file f.name)) ∧
      (∀ f ∈ sorted_json_files files, ∀ t,
        parse_and_validate_template parse_document parse_ui_schema f.content
          source f.name = .ok t →
        t ∈ (load_templates parse_document parse_ui_schema source
          files).templates) ∧
      (∀ f ∈ sorted_json_files files, ∀ reason,
        parse_and_validate_template parse_document parse_ui_schema f.content
          source f.name = .error reason →
        (⟨source.provider_id, f.name, reason⟩ : CatalogLoadDiagnostic) ∈
          (load_templates parse_document parse_ui_schema source
            files).diagnostics) := by
  intro parse_document parse_ui_schema source files
  obtain ⟨ht, hd⟩ := load_foldl_spec parse_document parse_ui_schema source
    (sorted_json_files files) ⟨[], []⟩
  rw [show (⟨[], []⟩ : CatalogLoadOutput).templates = [] from rfl,
    List.nil_append] at ht
  rw [show (⟨[], []⟩ : CatalogLoadOutput).diagnostics = [] from rfl,
    List.nil_append] at hd
  have ht2 : (load_templates parse_document parse_ui_schema source
      files).templates = _ := ht
  have hd2 : (load_templates parse_document parse_ui_schema source
      files).diagnostics = _ := hd
  refine ⟨ht2, hd2, ?_, List.sorted_insertionSort file_le _,
    List.perm_insertionSort file_le _, ?_, ?_⟩
  · rw [ht2, hd2]
    exact load_counts parse_document parse_ui_schema source
      (sorted_json_files files)
  · intro f hf t hp
    rw [ht2]
    exact List.mem_filterMap.mpr ⟨f, hf, by rw [hp]; rfl⟩
  · intro f hf reason hp
    rw [hd2]
    exact List.mem_filterMap.mpr ⟨f, hf, by rw [hp]⟩

/-- Witness for the per-document loading theorem: a single json file
whose parse fails yields no template and exactly its own diagnostic. -/
theorem c8_per_document_loading_witness :
    (⟨"a.json", "x"⟩ : FsFile) ∈ sorted_json_files [⟨"a.json", "x"⟩] ∧
    parse_and_validate_template (fun _ => .error "bad")
      (fun _ => .error "nope") "x" ⟨"user-local", .user, false⟩ "a.json" =
      .error "template parse failed (a.json): bad" ∧
    (⟨"user-local", "a.json", "template parse failed (a.json): bad"⟩ :
        CatalogLoadDiagnostic) ∈
      (load_templates (fun _ => .error "bad") (fun _ => .error "nope")
        ⟨"user-local", .user, false⟩ [⟨"a.json", "x"⟩]).diagnostics := by
  have hmem : (⟨"a.json", "x"⟩ : FsFile) ∈
      sorted_json_files [⟨"a.json", "x"⟩] := by
    rw [show sorted_json_files [⟨"a.json", "x"⟩] =
      [⟨"a.json", "x"⟩] by decide]
    exact List.mem_singleton.mpr rfl
  refine ⟨hmem, rfl, ?_⟩
  exact (c8_per_document_loading (fun _ => .error "bad")
    (fun _ => .error "nope") ⟨"user-local", .user, false⟩
    [⟨"a.json", "x"⟩]).2.2.2.2.2.2 ⟨"a.json", "x"⟩ hmem
    "template parse failed (a.json): bad" rfl
